import Mathlib

/-!
Verification of the travel-itinerary pipeline (server/travel): schemas,
output parser and normalizer, coordinate enrichment, markdown synthesis and
the top-level service, shallowly embedded from the Python sources.
Floats are modelled by rationals, `None` by `Option`, and raised exceptions
by `Except` values.
-/

/-! ## Python-style helpers -/

/-- Python truthiness of an `Optional[float]`: `None` and `0.0` are falsy. -/
def truthyOptQ : Option ℚ → Bool
  | none => false
  | some q => q != 0

/-- Python truthiness of an `Optional[str]`: `None` and `""` are falsy. -/
def truthyOptStr : Option String → Bool
  | none => false
  | some s => s != ""

/-- Python truthiness of an `Optional[int]`: `None` and `0` are falsy. -/
def truthyOptInt : Option Int → Bool
  | none => false
  | some n => n != 0

/-- Python truthiness of an `Optional[list]`: `None` and `[]` are falsy. -/
def truthyOptList {α : Type} : Option (List α) → Bool
  | none => false
  | some l => !l.isEmpty

/-- Python `str.strip()`: drop leading and trailing whitespace (structural,
over the character list). -/
def pyStrip (s : String) : String :=
  String.mk ((s.data.dropWhile Char.isWhitespace).reverse.dropWhile
    Char.isWhitespace).reverse

/-- Python `str.startswith`. -/
def pyStartsWith (s pre : String) : Bool := pre.data.isPrefixOf s.data

/-- Python `str.endswith`. -/
def pyEndsWith (s suf : String) : Bool := suf.data.isSuffixOf s.data

/-- Python slicing `s[n:]`. -/
def pyDrop (s : String) (n : Nat) : String := String.mk (s.data.drop n)

/-- Python slicing `s[:-n]`. -/
def pyDropRight (s : String) (n : Nat) : String :=
  String.mk (s.data.take (s.data.length - n))

/-- Auxiliary traversal for Python `str.split(",")`. -/
def pySplitCommaAux : List Char → List Char → List String
  | [], acc => [String.mk acc.reverse]
  | c :: rest, acc =>
      if c = ',' then String.mk acc.reverse :: pySplitCommaAux rest []
      else pySplitCommaAux rest (c :: acc)

/-- Python `str.split(",")`: split at every comma (no merging, keeps empty
pieces). -/
def pySplitComma (s : String) : List String := pySplitCommaAux s.data []

/-- Python `round(x)` to an integer: round half to even (banker's rounding). -/
def pyRoundInt (q : ℚ) : ℤ :=
  let f := ⌊q⌋
  let frac := q - f
  if frac < 1/2 then f
  else if 1/2 < frac then f + 1
  else if f % 2 = 0 then f else f + 1

/-- Python `round(x, 1)`. -/
def pyRound1 (q : ℚ) : ℚ := (pyRoundInt (q * 10) : ℚ) / 10

/-- Python `round(x, 2)`, used for `processing_time`. -/
def pyRound2 (q : ℚ) : ℚ := (pyRoundInt (q * 100) : ℚ) / 100

/-! ## Data model (travel/schemas.py)

Each pydantic model is embedded twice: a `Raw*` form standing for the JSON
dictionary handed to the model constructor (required fields may be missing,
hence `Option`), and the validated form produced when construction succeeds.
-/

/-- travel/schemas.py `Location` (validated). -/
structure Location where
  name : String
  address : Option String
  latitude : Option ℚ
  longitude : Option ℚ
  rating : Option ℚ
  review_count : Option Int
  category : Option String
  image_url : Option String
  image_alt : Option String
deriving DecidableEq

/-- travel/schemas.py `Activity` (validated). -/
structure Activity where
  name : String
  description : Option String
  location : Location
  start_time : Option String
  end_time : Option String
  duration_hours : Option ℚ
  cost_estimate : Option String
  tips : Option (List String)
  priority : Option Int
  image_url : Option String
  booking_info : Option String
deriving DecidableEq

/-- travel/schemas.py `DayPlan` (validated). -/
structure DayPlan where
  day_number : Int
  date : Option String
  title : String
  description : Option String
  theme : Option String
  activities : List Activity
  estimated_cost : Option String
  notes : Option String
  highlights : Option (List String)
deriving DecidableEq

/-- travel/schemas.py `Accommodation` (validated). -/
structure Accommodation where
  name : String
  type : Option String
  location : Option String
  address : Option String
  price_range : Option String
  rating : Option ℚ
  review_count : Option Int
  recommendation_reason : Option String
  image_url : Option String
  amenities : Option (List String)
  booking_url : Option String
deriving DecidableEq

/-- travel/schemas.py `Transportation` (validated). -/
structure Transportation where
  type : String
  route : Option String
  estimated_cost : Option String
  duration : Option String
  tips : Option (List String)
deriving DecidableEq

/-- travel/schemas.py `ItineraryReport` (validated). -/
structure ItineraryReport where
  summary : String
  destination : String
  total_days : Int
  travel_type : Option String
  budget_estimate : Option String
  day_plans : List DayPlan
  top_attractions : Option (List Location)
  must_visit_places : Option (List Location)
  accommodation_recommendations : Option (List Accommodation)
  transportation_tips : Option (List Transportation)
  local_transport : Option String
  general_tips : Option (List String)
  cultural_notes : Option (List String)
  best_time_to_visit : Option String
  weather_info : Option String
  destination_image : Option String
  cover_image : Option String
  created_at : Option String
  last_updated : Option String
  markdown_description : Option String
deriving DecidableEq

/-- travel/schemas.py `TravelPlanRequest`: the declared fields plus the
`extra = "allow"` side channel of undeclared fields sent by the client
(modelled as an association list of string-valued attributes). -/
structure TravelPlanRequest where
  destination : String
  days : Option Int
  origin : Option String
  travel_type : Option String
  budget : Option String
  preferences : Option String
  date : Option String
  notes : Option String
  extra : List (String × String)
deriving DecidableEq

/-- travel/schemas.py `TravelPlanResponse`. -/
structure TravelPlanResponse where
  success : Bool
  itinerary : Option ItineraryReport
  message : Option String
  processing_time : Option ℚ
deriving DecidableEq

/-- The JSON dictionary shape of a `Location` before pydantic validation. -/
structure RawLocation where
  name : Option String
  address : Option String
  latitude : Option ℚ
  longitude : Option ℚ
  rating : Option ℚ
  review_count : Option Int
  category : Option String
  image_url : Option String
  image_alt : Option String
deriving DecidableEq

/-- The JSON dictionary shape of an `Activity` before validation. -/
structure RawActivity where
  name : Option String
  description : Option String
  location : Option RawLocation
  start_time : Option String
  end_time : Option String
  duration_hours : Option ℚ
  cost_estimate : Option String
  tips : Option (List String)
  priority : Option Int
  image_url : Option String
  booking_info : Option String
deriving DecidableEq

/-- The JSON dictionary shape of a `DayPlan` before validation.
`activities` has `default_factory=list`, so a missing key is the empty list. -/
structure RawDayPlan where
  day_number : Option Int
  date : Option String
  title : Option String
  description : Option String
  theme : Option String
  activities : List RawActivity
  estimated_cost : Option String
  notes : Option String
  highlights : Option (List String)
deriving DecidableEq

/-- The JSON dictionary shape of an `Accommodation` before validation. -/
structure RawAccommodation where
  name : Option String
  type : Option String
  location : Option String
  address : Option String
  price_range : Option String
  rating : Option ℚ
  review_count : Option Int
  recommendation_reason : Option String
  image_url : Option String
  amenities : Option (List String)
  booking_url : Option String
deriving DecidableEq

/-- The JSON dictionary shape of a `Transportation` before validation. -/
structure RawTransportation where
  type : Option String
  route : Option String
  estimated_cost : Option String
  duration : Option String
  tips : Option (List String)
deriving DecidableEq

/-- The JSON dictionary shape of an `ItineraryReport` before validation. -/
structure RawReport where
  summary : Option String
  destination : Option String
  total_days : Option Int
  travel_type : Option String
  budget_estimate : Option String
  day_plans : Option (List RawDayPlan)
  top_attractions : Option (List RawLocation)
  must_visit_places : Option (List RawLocation)
  accommodation_recommendations : Option (List RawAccommodation)
  transportation_tips : Option (List RawTransportation)
  local_transport : Option String
  general_tips : Option (List String)
  cultural_notes : Option (List String)
  best_time_to_visit : Option String
  weather_info : Option String
  destination_image : Option String
  cover_image : Option String
  created_at : Option String
  last_updated : Option String
  markdown_description : Option String
deriving DecidableEq

/-! ## Output parser and normalizer (travel/output_parser.py) -/

/-- `TravelItineraryParser._extract_json`: strip surrounding whitespace and
markdown code fences. -/
def extractJson (text : String) : String :=
  let t := pyStrip text
  let t :=
    if pyStartsWith t "\x60\x60\x60json" then pyDrop t 7
    else if pyStartsWith t "\x60\x60\x60" then pyDrop t 3
    else t
  let t := if pyEndsWith t "\x60\x60\x60" then pyDropRight t 3 else t
  pyStrip t

/-- `TravelItineraryParser._extract_json_from_text`: the substring between the
first brace-open and the last brace-close, when the latter comes strictly
after the former. -/
def extractJsonFromText (text : String) : Option String :=
  let cs := text.data
  match cs.indexOf? '\x7b', (cs.reverse.indexOf? '\x7d') with
  | some s, some rj =>
      let e := cs.length - 1 - rj
      if s < e then some (String.mk ((cs.take (e + 1)).drop s)) else none
  | _, _ => none

/-- The body of the rating-normalization rule: a value above 5 is read on a
0-10 scale and halved, rounded to one decimal; otherwise it is unchanged. -/
def normRating (r : ℚ) : ℚ := if 5 < r then pyRound1 (r / 2) else r

/-- `_normalize_ratings` on one location dictionary. -/
def normalizeLocRating (l : RawLocation) : RawLocation :=
  { l with rating := l.rating.map normRating }

/-- `_normalize_ratings` on one activity dictionary. -/
def normalizeActivity (a : RawActivity) : RawActivity :=
  { a with location := a.location.map normalizeLocRating }

/-- `_normalize_ratings` on one day-plan dictionary. -/
def normalizeDayPlan (d : RawDayPlan) : RawDayPlan :=
  { d with activities := d.activities.map normalizeActivity }

/-- `_normalize_ratings` on one accommodation dictionary. -/
def normalizeAcc (a : RawAccommodation) : RawAccommodation :=
  { a with rating := a.rating.map normRating }

/-- `TravelItineraryParser._normalize_ratings`: walk the four rating-bearing
field families of the report dictionary. -/
def normalizeRatings (d : RawReport) : RawReport :=
  { d with
    day_plans := d.day_plans.map (List.map normalizeDayPlan)
    top_attractions := d.top_attractions.map (List.map normalizeLocRating)
    must_visit_places := d.must_visit_places.map (List.map normalizeLocRating)
    accommodation_recommendations :=
      d.accommodation_recommendations.map (List.map normalizeAcc) }

/-- Bound check of an optional pydantic `Field(ge=0, le=5)` rating. -/
def ratingOk : Option ℚ → Bool
  | none => true
  | some q => decide (0 ≤ q ∧ q ≤ 5)

/-- Pydantic construction of `Location` from its dictionary. -/
def validateLocation (l : RawLocation) : Except String Location :=
  match l.name with
  | none => .error "location.name: Field required"
  | some nm =>
      if ratingOk l.rating then
        .ok { name := nm, address := l.address, latitude := l.latitude,
              longitude := l.longitude, rating := l.rating,
              review_count := l.review_count, category := l.category,
              image_url := l.image_url, image_alt := l.image_alt }
      else .error "location.rating: Input should be less than or equal to 5"

/-- Pydantic construction of `Activity` from its dictionary. -/
def validateActivity (a : RawActivity) : Except String Activity :=
  match a.name with
  | none => .error "activity.name: Field required"
  | some nm =>
      match a.location with
      | none => .error "activity.location: Field required"
      | some rawLoc =>
          match validateLocation rawLoc with
          | .error e => .error e
          | .ok loc =>
              if (match a.priority with
                  | none => true
                  | some p => decide (1 ≤ p ∧ p ≤ 5)) then
                .ok { name := nm, description := a.description, location := loc,
                      start_time := a.start_time, end_time := a.end_time,
                      duration_hours := a.duration_hours,
                      cost_estimate := a.cost_estimate, tips := a.tips,
                      priority := a.priority, image_url := a.image_url,
                      booking_info := a.booking_info }
              else .error "activity.priority: Input should be between 1 and 5"

/-- Pydantic construction of `DayPlan` from its dictionary. -/
def validateDayPlan (d : RawDayPlan) : Except String DayPlan :=
  match d.day_number with
  | none => .error "day_plan.day_number: Field required"
  | some dn =>
      if 1 ≤ dn then
        match d.title with
        | none => .error "day_plan.title: Field required"
        | some ti =>
            match d.activities.mapM validateActivity with
            | .error e => .error e
            | .ok acts =>
                .ok { day_number := dn, date := d.date, title := ti,
                      description := d.description, theme := d.theme,
                      activities := acts, estimated_cost := d.estimated_cost,
                      notes := d.notes, highlights := d.highlights }
      else .error "day_plan.day_number: Input should be greater than or equal to 1"

/-- Pydantic construction of `Accommodation` from its dictionary. -/
def validateAccommodation (a : RawAccommodation) : Except String Accommodation :=
  match a.name with
  | none => .error "accommodation.name: Field required"
  | some nm =>
      if ratingOk a.rating then
        .ok { name := nm, type := a.type, location := a.location,
              address := a.address, price_range := a.price_range,
              rating := a.rating, review_count := a.review_count,
              recommendation_reason := a.recommendation_reason,
              image_url := a.image_url, amenities := a.amenities,
              booking_url := a.booking_url }
      else .error "accommodation.rating: Input should be less than or equal to 5"

/-- Pydantic construction of `Transportation` from its dictionary. -/
def validateTransportation (t : RawTransportation) : Except String Transportation :=
  match t.type with
  | none => .error "transportation.type: Field required"
  | some ty =>
      .ok { type := ty, route := t.route, estimated_cost := t.estimated_cost,
            duration := t.duration, tips := t.tips }

/-- Validation of an optional list field: `None` passes through, a present
list is validated element-wise. -/
def validateOptList {α β : Type} (f : α → Except String β) :
    Option (List α) → Except String (Option (List β))
  | none => .ok none
  | some l =>
      match l.mapM f with
      | .error e => .error e
      | .ok l' => .ok (some l')

/-- Pydantic construction of `ItineraryReport` from the parsed dictionary
(`ItineraryReport(**data)`): required fields, `total_days >= 1`,
`day_plans` non-empty, and nested model validation. -/
def validateReport (d : RawReport) : Except String ItineraryReport :=
  match d.summary with
  | none => .error "summary: Field required"
  | some su =>
      match d.destination with
      | none => .error "destination: Field required"
      | some de =>
          match d.total_days with
          | none => .error "total_days: Field required"
          | some td =>
              if 1 ≤ td then
                match d.day_plans with
                | none => .error "day_plans: Field required"
                | some rawPlans =>
                    match rawPlans.mapM validateDayPlan with
                    | .error e => .error e
                    | .ok plans =>
                        if plans.isEmpty then
                          .error "day_plans: List should have at least 1 item"
                        else
                          match validateOptList validateLocation d.top_attractions with
                          | .error e => .error e
                          | .ok tas =>
                              match validateOptList validateLocation d.must_visit_places with
                              | .error e => .error e
                              | .ok mvs =>
                                  match validateOptList validateAccommodation
                                      d.accommodation_recommendations with
                                  | .error e => .error e
                                  | .ok accs =>
                                      match validateOptList validateTransportation
                                          d.transportation_tips with
                                      | .error e => .error e
                                      | .ok trs =>
                                          .ok { summary := su, destination := de,
                                                total_days := td,
                                                travel_type := d.travel_type,
                                                budget_estimate := d.budget_estimate,
                                                day_plans := plans,
                                                top_attractions := tas,
                                                must_visit_places := mvs,
                                                accommodation_recommendations := accs,
                                                transportation_tips := trs,
                                                local_transport := d.local_transport,
                                                general_tips := d.general_tips,
                                                cultural_notes := d.cultural_notes,
                                                best_time_to_visit := d.best_time_to_visit,
                                                weather_info := d.weather_info,
                                                destination_image := d.destination_image,
                                                cover_image := d.cover_image,
                                                created_at := d.created_at,
                                                last_updated := d.last_updated,
                                                markdown_description := d.markdown_description }
              else .error "total_days: Input should be greater than or equal to 1"

/-- The distinct exception shapes that can escape
`TravelItineraryParser.parse`; `json.loads` failures are JSONDecodeError
(a ValueError subclass) and pydantic failures are ValidationError. -/
inductive ParseErr where
  /-- A raw `json.JSONDecodeError` escaping from the fallback branch. -/
  | jsonDecode (msg : String)
  /-- `ValueError("Failed to parse JSON from output: ...")`. -/
  | parseValueError (msg : String)
  /-- `ValueError("Failed to parse itinerary: ...")` re-raised by the
  catch-all handler around the main branch. -/
  | itineraryValueError (msg : String)
  /-- A raw pydantic ValidationError escaping from the fallback branch. -/
  | validationRaw (msg : String)
deriving DecidableEq

/-- An error is a parse-kind failure: no JSON could be decoded. -/
def ParseErr.isParseKind : ParseErr → Bool
  | .jsonDecode _ => true
  | .parseValueError _ => true
  | _ => false

/-- An error is a validation-kind failure: JSON was decoded but the report
construction was rejected. -/
def ParseErr.isValidationKind : ParseErr → Bool
  | .itineraryValueError _ => true
  | .validationRaw _ => true
  | _ => false

/-- `TravelItineraryParser.parse`, parametric in `json.loads` (Python
standard library; an `.error` result is a JSONDecodeError with its message).
The fallback branch runs inside the first `except` clause, so its own
decode and validation failures escape unwrapped. -/
def parse (loads : String → Except String RawReport) (text : String) :
    Except ParseErr ItineraryReport :=
  let stripped := extractJson text
  match loads stripped with
  | .ok data =>
      match validateReport (normalizeRatings data) with
      | .ok rep => .ok rep
      | .error vmsg => .error (.itineraryValueError ("Failed to parse itinerary: " ++ vmsg))
  | .error decodeMsg =>
      match extractJsonFromText stripped with
      | some jsonStr =>
          match loads jsonStr with
          | .ok data =>
              match validateReport (normalizeRatings data) with
              | .ok rep => .ok rep
              | .error vmsg => .error (.validationRaw vmsg)
          | .error m => .error (.jsonDecode m)
      | none => .error (.parseValueError ("Failed to parse JSON from output: " ++ decodeMsg))

/-! ## Coordinate enrichment (travel/service.py `_enrich_with_coordinates`) -/

/-- Modelled from the spec: `get_place_coordinates` is imported from
`travel.tools` by the service and the agent, but the tools module in the
sources does not define it. Per the spec (section 6), the geocoding adapter is
`geocode(query) -> "lat,lng" | null`; it is modelled as an injected call that
may also raise (`.error`), return no result (`.ok none`) or return a
response string (`.ok (some s)`). -/
def getPlaceCoordinates (geocode : String → Except Unit (Option String))
    (query : String) : Except Unit (Option String) :=
  geocode query

/-- The query built by `get_coords`: `"name, destination"` when an address
and a destination are (truthily) present, else the bare place name. -/
def coordQuery (destination : String) (placeName : String)
    (address : Option String) : String :=
  if truthyOptStr address && (destination != "") then
    placeName ++ ", " ++ destination
  else placeName

/-- The helper `get_coords` inside `_enrich_with_coordinates`: invoke the
geocoding tool on the built query, split a `"lat,lng"` response and parse
the two floats (`parseFloat` models Python `float`, `none` for ValueError).
Every failure path returns `(None, None)`. -/
def getCoords (geocode : String → Except Unit (Option String))
    (parseFloat : String → Option ℚ) (destination : String)
    (placeName : String) (address : Option String) : Option ℚ × Option ℚ :=
  match getPlaceCoordinates geocode (coordQuery destination placeName address) with
  | .error _ => (none, none)
  | .ok none => (none, none)
  | .ok (some s) =>
      if s ≠ "" ∧ 2 ≤ (pySplitComma s).length then
        match pySplitComma s with
        | [a, b] =>
            match parseFloat (pyStrip a), parseFloat (pyStrip b) with
            | some la, some lo => (some la, some lo)
            | _, _ => (none, none)
        | _ => (none, none)
      else (none, none)

/-- One enrichment step on a location: the guard is Python-truthiness of
`latitude` (`if ... not location.latitude`), and the looked-up pair is
assigned only under `if lat and lon` (both non-`None` and nonzero). -/
def enrichLocation (geocode : String → Except Unit (Option String))
    (parseFloat : String → Option ℚ) (destination : String)
    (loc : Location) : Location :=
  if truthyOptQ loc.latitude then loc
  else
    match getCoords geocode parseFloat destination loc.name loc.address with
    | (some la, some lo) =>
        if la ≠ 0 ∧ lo ≠ 0 then
          { loc with latitude := some la, longitude := some lo }
        else loc
    | _ => loc

/-- `_enrich_with_coordinates`: walk activity locations of every day plan,
then `top_attractions or []`, then `must_visit_places or []`. The other
report fields are untouched. -/
def enrichReport (geocode : String → Except Unit (Option String))
    (parseFloat : String → Option ℚ) (destination : String)
    (it : ItineraryReport) : ItineraryReport :=
  { it with
    day_plans := it.day_plans.map fun dp =>
      { dp with activities := dp.activities.map fun a =>
          { a with location := enrichLocation geocode parseFloat destination a.location } }
    top_attractions :=
      it.top_attractions.map (List.map (enrichLocation geocode parseFloat destination))
    must_visit_places :=
      it.must_visit_places.map (List.map (enrichLocation geocode parseFloat destination)) }

/-! ## Markdown synthesizer (travel/service.py `_generate_markdown_description`)

The Python builds a list `md_parts` of string fragments and joins them with
the empty separator; `generateMarkdown` mirrors that construction fragment by
fragment, and the per-section functions used by the factorization theorem are
defined afterwards.
-/

/-- Fragments for one activity (the `enumerate(day_plan.activities, 1)` body);
`idx` is the 1-based position. -/
def activityParts (idx : Nat) (a : Activity) : List String :=
  ["**" ++ toString idx ++ ". " ++ a.name ++ "**\n\n"] ++
  (if truthyOptStr a.description then [(a.description.getD "") ++ "\n\n"] else []) ++
  (["- **Location:** " ++ a.location.name] ++
   (if truthyOptStr a.location.address then
      [" (" ++ (a.location.address.getD "") ++ ")"] else []) ++
   (if truthyOptQ a.location.rating then
      [" ⭐ " ++ toString (a.location.rating.getD 0) ++ "/5"] else []) ++
   ["\n"]) ++
  (if truthyOptStr a.start_time && truthyOptStr a.end_time then
     ["- **Time:** " ++ (a.start_time.getD "") ++ " - " ++ (a.end_time.getD "") ++ "\n"]
   else []) ++
  (if truthyOptStr a.cost_estimate then
     ["- **Cost:** " ++ (a.cost_estimate.getD "") ++ "\n"] else []) ++
  (if truthyOptList a.tips then
     ["- **Tips:** " ++ String.intercalate ", " (a.tips.getD []) ++ "\n"] else []) ++
  ["\n"]

/-- Fragments for one day plan. -/
def dayPlanParts (dp : DayPlan) : List String :=
  ["### Day " ++ toString dp.day_number ++ ": " ++ dp.title ++ "\n\n"] ++
  (if truthyOptStr dp.description then ["*" ++ (dp.description.getD "") ++ "*\n\n"] else []) ++
  (if dp.activities.isEmpty then []
   else ["#### Activities\n\n"] ++
     (dp.activities.enum.flatMap fun p => activityParts (p.1 + 1) p.2)) ++
  (if truthyOptList dp.highlights then
     ["**Highlights:** " ++ String.intercalate ", " (dp.highlights.getD []) ++ "\n\n"]
   else []) ++
  (if truthyOptStr dp.estimated_cost then
     ["**Estimated Cost:** " ++ (dp.estimated_cost.getD "") ++ "\n\n"] else []) ++
  (if truthyOptStr dp.notes then
     ["*Note: " ++ (dp.notes.getD "") ++ "*\n\n"] else []) ++
  ["---\n\n"]

/-- Fragments for one top attraction (1-based position `idx`). -/
def attractionParts (idx : Nat) (l : Location) : List String :=
  [toString idx ++ ". **" ++ l.name ++ "**"] ++
  (if truthyOptQ l.rating then [" ⭐ " ++ toString (l.rating.getD 0) ++ "/5"] else []) ++
  (if truthyOptStr l.address then ["\n   - " ++ (l.address.getD "")] else []) ++
  (if truthyOptStr l.category then ["\n   - Category: " ++ (l.category.getD "")] else []) ++
  ["\n\n"]

/-- Fragments for one must-visit place. -/
def mustVisitItemParts (l : Location) : List String :=
  ["- **" ++ l.name ++ "**"] ++
  (if truthyOptQ l.rating then [" ⭐ " ++ toString (l.rating.getD 0) ++ "/5"] else []) ++
  ["\n"]

/-- Fragments for one accommodation recommendation. -/
def accommodationParts (a : Accommodation) : List String :=
  ["### " ++ a.name ++ "\n\n"] ++
  ["- **Type:** " ++ (if truthyOptStr a.type then a.type.getD "" else "Not specified") ++ "\n"] ++
  (if truthyOptStr a.location then ["- **Location:** " ++ (a.location.getD "") ++ "\n"] else []) ++
  (if truthyOptStr a.price_range then
     ["- **Price Range:** " ++ (a.price_range.getD "") ++ "\n"] else []) ++
  (if truthyOptQ a.rating then
     ["- **Rating:** ⭐ " ++ toString (a.rating.getD 0) ++ "/5"] ++
     (if truthyOptInt a.review_count then
        [" (" ++ toString (a.review_count.getD 0) ++ " reviews)"] else []) ++
     ["\n"]
   else []) ++
  (if truthyOptStr a.recommendation_reason then
     ["- **Why:** " ++ (a.recommendation_reason.getD "") ++ "\n"] else []) ++
  (if truthyOptList a.amenities then
     ["- **Amenities:** " ++ String.intercalate ", " (a.amenities.getD []) ++ "\n"] else []) ++
  ["\n"]

/-- Fragments for one transportation entry. -/
def transportParts (t : Transportation) : List String :=
  ["### " ++ t.type ++ "\n\n"] ++
  (if truthyOptStr t.route then ["- **Route:** " ++ (t.route.getD "") ++ "\n"] else []) ++
  (if truthyOptStr t.estimated_cost then
     ["- **Cost:** " ++ (t.estimated_cost.getD "") ++ "\n"] else []) ++
  (if truthyOptStr t.duration then
     ["- **Duration:** " ++ (t.duration.getD "") ++ "\n"] else []) ++
  (if truthyOptList t.tips then
     ["**Tips:**\n"] ++ (t.tips.getD []).map (fun tip => "- " ++ tip ++ "\n")
   else []) ++
  ["\n"]

/-- `_generate_markdown_description`: the full `md_parts` list, in the order
the Python appends fragments, joined with the empty separator. -/
def generateMarkdown (it : ItineraryReport) : String :=
  String.join (
    ["# " ++ it.destination ++ " Travel Itinerary\n"] ++
    ["## Overview\n", it.summary ++ "\n", "\n---\n"] ++
    (["## Travel Details\n", "- **Duration:** " ++ toString it.total_days ++ " days\n"] ++
     (if truthyOptStr it.travel_type then
        ["- **Travel Type:** " ++ (it.travel_type.getD "") ++ "\n"] else []) ++
     (if truthyOptStr it.budget_estimate then
        ["- **Estimated Budget:** " ++ (it.budget_estimate.getD "") ++ "\n"] else []) ++
     (if truthyOptStr it.best_time_to_visit then
        ["- **Best Time to Visit:** " ++ (it.best_time_to_visit.getD "") ++ "\n"] else []) ++
     ["\n"]) ++
    (if it.day_plans.isEmpty then []
     else ["## Day-by-Day Itinerary\n\n"] ++ it.day_plans.flatMap dayPlanParts) ++
    (if truthyOptList it.top_attractions then
       ["## Top Attractions\n\n"] ++
       (((it.top_attractions.getD []).take 10).enum.flatMap fun p =>
         attractionParts (p.1 + 1) p.2)
     else []) ++
    (if truthyOptList it.must_visit_places then
       ["## Must-Visit Places\n\n"] ++
       (((it.must_visit_places.getD []).take 10).flatMap mustVisitItemParts) ++ ["\n"]
     else []) ++
    (if truthyOptList it.accommodation_recommendations then
       ["## Accommodation Recommendations\n\n"] ++
       ((it.accommodation_recommendations.getD []).flatMap accommodationParts)
     else []) ++
    (if truthyOptList it.transportation_tips then
       ["## Transportation\n\n"] ++
       ((it.transportation_tips.getD []).flatMap transportParts)
     else []) ++
    (if truthyOptStr it.local_transport then
       ["### Local Transportation\n\n" ++ (it.local_transport.getD "") ++ "\n\n"] else []) ++
    (if truthyOptList it.general_tips then
       ["## General Travel Tips\n\n"] ++
       ((it.general_tips.getD []).map fun tip => "- " ++ tip ++ "\n") ++ ["\n"]
     else []) ++
    (if truthyOptList it.cultural_notes then
       ["## Cultural Information\n\n"] ++
       ((it.cultural_notes.getD []).map fun note => "- " ++ note ++ "\n") ++ ["\n"]
     else []) ++
    (if truthyOptStr it.weather_info then
       ["## Weather Information\n\n", (it.weather_info.getD "") ++ "\n\n"] else []) ++
    (if truthyOptStr it.best_time_to_visit then
       ["## Best Time to Visit\n\n", (it.best_time_to_visit.getD "") ++ "\n\n"] else []))

/-! ## Itinerary service (travel/service.py, travel/agent.py) -/

/-- The Python exceptions that cross stage boundaries inside the service. -/
inductive PyExc where
  /-- `AttributeError` from reading an undeclared attribute. -/
  | attributeError (obj attr : String)
  /-- `ValueError` (including the configuration error of `get_gemini_llm`). -/
  | valueError (msg : String)
  /-- `json.JSONDecodeError` (a `ValueError` subclass). -/
  | jsonDecodeError (msg : String)
  /-- pydantic `ValidationError`. -/
  | validationError (msg : String)
  /-- Any other exception (network failures, library errors, ...). -/
  | other (msg : String)
deriving DecidableEq

/-- Python `str(e)` for the modelled exceptions. -/
def PyExc.toMessage : PyExc → String
  | .attributeError obj attr =>
      "\x27" ++ obj ++ "\x27 object has no attribute \x27" ++ attr ++ "\x27"
  | .valueError m => m
  | .jsonDecodeError m => m
  | .validationError m => m
  | .other m => m

/-- The exception escaping `TravelItineraryParser.parse`, as seen by the
service's catch-all handler. -/
def ParseErr.toPyExc : ParseErr → PyExc
  | .jsonDecode m => .jsonDecodeError m
  | .parseValueError m => .valueError m
  | .itineraryValueError m => .valueError m
  | .validationRaw m => .validationError m

/-- travel/agent.py `get_gemini_llm`: fails fast with a descriptive
`ValueError` when no API key is configured, returns the client otherwise. -/
def getGeminiLlm (hasApiKey : Bool) : Except PyExc Unit :=
  if hasApiKey then .ok ()
  else .error (.valueError
    "GOOGLE_API_KEY is required. Set it in environment variables or settings.")

/-- Attribute access `request.<attr>` for a name not declared on
`TravelPlanRequest`: with `extra = "allow"`, it succeeds exactly when the
client sent an extra field of that name, and raises `AttributeError`
otherwise. -/
def getattrExtra (req : TravelPlanRequest) (attr : String) : Except PyExc String :=
  match req.extra.lookup attr with
  | some v => .ok v
  | none => .error (.attributeError "TravelPlanRequest" attr)

/-- travel/output_parser.py `get_itinerary_prompt_template(...).format(...)`:
the fixed instruction template with the eight request slots and the format
instructions substituted. -/
def itineraryPromptText (fi destinationV durationV startDateV difficultyV
    budgetV interestsV groupSizeV accomV : String) : String :=
  "You are an expert travel planner AI assistant. Create a comprehensive, personalized travel itinerary based on the user\x27s specific requirements.\n\n" ++
  "User Requirements:\nDestination: " ++ destinationV ++ "\nDuration: " ++ durationV ++
  " days\nStart Date: " ++ startDateV ++ "\nDifficulty Level: " ++ difficultyV ++
  "\nBudget Range: " ++ budgetV ++ "\nInterests: " ++ interestsV ++ "\nGroup Size: " ++
  groupSizeV ++ " people\nAccommodation Type: " ++ accomV ++ "\n\n" ++
  "Instructions:\n1. Create a detailed day-by-day itinerary tailored to the specified difficulty level and interests\n" ++
  "2. Ensure activities match the group size and are appropriate for the number of travelers\n" ++
  "3. Recommend activities and places that align with the user\x27s interests (" ++ interestsV ++ ")\n" ++
  "4. Keep all recommendations within the specified budget range (" ++ budgetV ++ ")\n" ++
  "5. Suggest accommodations matching the preferred type (" ++ accomV ++ ")\n" ++
  "6. Include specific times, locations, and cost estimates for each activity\n" ++
  "7. Provide ratings and reviews for all recommended places\n" ++
  "8. Include image URLs when available from search results\n" ++
  "9. Add transportation tips considering the group size\n" ++
  "10. Provide cultural tips and best practices for the destination\n" ++
  "11. Adjust the itinerary pace based on difficulty level (easy = relaxed, challenging = packed schedule)\n\n" ++
  "IMPORTANT OUTPUT REQUIREMENTS:\n- day_plans: REQUIRED - Must have exactly " ++ durationV ++
  " day plans with:\n  - day_number: Sequential day number (1 to " ++ durationV ++ ")\n" ++
  "  - title: Descriptive title for the day\n  - description: Overview of the day\x27s activities\n" ++
  "  - activities: List of activities, each with:\n    - name: Activity name\n" ++
  "    - description: Detailed description matching user interests\n" ++
  "    - location: Location object with name, address, rating, image_url, latitude, longitude\n" ++
  "    - start_time and end_time: Time slots (adjust pace based on difficulty level)\n" ++
  "    - cost_estimate: Estimated cost within budget range\n" ++
  "    - image_url: Image URL if found from search\n    - difficulty: Activity difficulty level\n\n" ++
  "- top_attractions: List of top places matching user interests with:\n" ++
  "  - name, address, rating, review_count, latitude, longitude\n" ++
  "  - image_url: Image URL from search results\n" ++
  "  - category: Type of attraction (should align with interests: " ++ interestsV ++ ")\n" ++
  "  - suitable_for_group_size: Boolean indicating if suitable for the group\n\n" ++
  "- must_visit_places: List with:\n  - name, address, rating, latitude, longitude\n" ++
  "  - image_url: Image URL if available\n\n" ++
  "- accommodation_recommendations: List matching accommodation type preference (" ++ accomV ++
  ") with:\n  - name, type (hotel/guest house/hostel/etc.), location\n" ++
  "  - price_range: Within specified budget range (" ++ budgetV ++ ")\n" ++
  "  - rating, image_url\n  - amenities: List of amenities\n" ++
  "  - group_capacity: Maximum guests it can accommodate\n\n" ++
  "- budget_breakdown: Estimated costs breakdown:\n  - accommodation_cost: Total for " ++ durationV ++
  " days\n  - activities_cost: Total for all activities\n" ++
  "  - transportation_cost: Estimated transport costs\n  - food_cost: Estimated daily food costs\n" ++
  "  - total_estimate: Overall trip cost\n\n" ++
  "- Include destination_image and cover_image URLs if found\n" ++
  "- Include weather_info (especially relevant for start date: " ++ startDateV ++ ")\n" ++
  "- Include cultural_notes relevant to the destination\n" ++
  "- Provide detailed general_tips considering group size (" ++ groupSizeV ++ ") and interests (" ++
  interestsV ++ ")\n- Provide transportation_tips for moving the group around\n" ++
  "- Include difficulty_notes explaining the physical demands of the itinerary\n" ++
  "- Add group_travel_tips for managing a group of " ++ groupSizeV ++ " people\n\n" ++
  "CRITICAL RULES:\n1. For all locations, places, and attractions, you MUST include latitude and longitude coordinates.\n" ++
  "   Use the get_place_coordinates tool to get accurate coordinates for each place before finalizing the itinerary.\n\n" ++
  "2. ALL RATINGS MUST BE ON A 0-5 SCALE (not 0-10). If you find ratings on a 0-10 scale, divide by 2.\n" ++
  "   Example: If a place has 8.9/10 rating, convert it to 4.5/5.\n\n" ++
  "3. Create exactly " ++ durationV ++ " day plans - one for each day of the trip.\n\n" ++
  "4. Ensure all activities match the " ++ difficultyV ++ " difficulty level:\n" ++
  "   - easy: Relaxed pace, light activities, plenty of rest time\n" ++
  "   - moderate: Balanced mix of activities and rest\n" ++
  "   - challenging: Packed schedule, physically demanding activities\n" ++
  "   - extreme: Very demanding, for experienced travelers only\n\n" ++
  "5. All costs must fit within the " ++ budgetV ++ " budget range.\n\n" ++
  "6. Focus on activities and attractions related to: " ++ interestsV ++ "\n\n" ++
  "Output Format:\n" ++ fi ++ "\n\n" ++
  "Generate the itinerary in valid JSON format matching the schema exactly. Ensure the itinerary is cohesive, practical, and tailored to all specified requirements.\n"

/-- travel/service.py `_prepare_agent_input`: reads the seven undeclared
request attributes (raising `AttributeError` when absent), applies the
Python `or` defaults, and assembles the research-request text. -/
def prepareAgentInput (req : TravelPlanRequest) : Except PyExc String := do
  let destination := req.destination
  let duration ← getattrExtra req "duration"
  let sd ← getattrExtra req "start_date"
  let start_date := if sd ≠ "" then sd else "not specified"
  let dl ← getattrExtra req "difficulty_level"
  let difficulty_level := if dl ≠ "" then dl else "moderate"
  let br ← getattrExtra req "budget_range"
  let budget_range := if br ≠ "" then br else "moderate"
  let ints ← getattrExtra req "interests"
  let interests := if ints ≠ "" then ints else "general sightseeing"
  let gs ← getattrExtra req "group_size"
  let group_size := if gs ≠ "" then gs else "1"
  let ac ← getattrExtra req "accommodation_type"
  let accommodation_type := if ac ≠ "" then ac else "mixed"
  let notes := req.notes.getD ""
  let inputText :=
    "Plan a " ++ duration ++ "-day trip to " ++ destination ++
    "\n\nTrip Details:\n- Duration: " ++ duration ++ " days\n- Start Date: " ++ start_date ++
    "\n- Difficulty Level: " ++ difficulty_level ++ "\n- Budget Range: " ++ budget_range ++
    "\n- Interests: " ++ interests ++ "\n- Group Size: " ++ group_size ++
    " people\n- Accommodation Preference: " ++ accommodation_type ++ "\n"
  let inputText :=
    if notes ≠ "" then inputText ++ "- Additional Notes: " ++ notes ++ "\n" else inputText
  let inputText := inputText ++
    "\nResearch Requirements:\n1. Search for top attractions and activities in " ++ destination ++
    " that match interests: " ++ interests ++ "\n2. Find places suitable for groups of " ++
    group_size ++ " people\n3. Get ratings and reviews for recommended places\n4. Find " ++
    accommodation_type ++ " accommodation options within " ++ budget_range ++
    " budget range\n5. Research activities matching " ++ difficulty_level ++
    " difficulty level\n6. Compare prices for accommodations, food, and activities in the " ++
    budget_range ++ " range\n7. Get weather information"
  let inputText :=
    if start_date ≠ "not specified" then inputText ++ " for " ++ start_date else inputText
  let inputText := inputText ++
    "\n8. Get local customs and cultural tips for " ++ destination ++
    "\n9. Research transportation options suitable for " ++ group_size ++
    " travelers\n10. Find image URLs from search results for:\n    - Destination cover image\n    - Attraction/location images matching interests (" ++
    interests ++ ")\n    - Activity images suitable for " ++ difficulty_level ++
    " level\n    - " ++ accommodation_type ++
    " accommodation images\n\nIMPORTANT: \n- Focus on activities and places that align with: " ++
    interests ++ "\n- Ensure all recommendations fit the " ++ budget_range ++
    " budget range\n- Activities should match " ++ difficulty_level ++
    " difficulty level\n- Consider group size of " ++ group_size ++
    " for all recommendations\n- Prioritize " ++ accommodation_type ++
    " accommodation types\n\nUse all available tools to gather comprehensive information about " ++
    destination ++ ".\n"
  pure (pyStrip inputText)

/-- The injected external collaborators and per-request environment of one
`generate_itinerary` call: credential presence, the agent executor and LLM
(free-text generation), `json.loads`, the geocoding tool with Python
`float`, the timestamp string, and the two wall-clock samples. -/
structure ServiceDeps where
  hasApiKey : Bool
  formatInstructions : String
  agentInvoke : String → Except PyExc (Option String)
  llmInvoke : String → Except PyExc String
  loads : String → Except String RawReport
  geocode : String → Except Unit (Option String)
  parseFloat : String → Option ℚ
  now : String
  t0 : ℚ
  t1 : ℚ

/-- The stages of `generate_itinerary` up to and including parsing: lazy
agent initialization (which resolves the credential), agent-input
preparation, the agent call, LLM construction, prompt assembly, the
generation call and `parser.parse`. -/
def runPipelineToParse (d : ServiceDeps) (req : TravelPlanRequest) :
    Except PyExc ItineraryReport := do
  let _ ← getGeminiLlm d.hasApiKey
  let agentInput ← prepareAgentInput req
  let agentRes ← d.agentInvoke agentInput
  let agentOutput := agentRes.getD ""
  let _ ← getGeminiLlm d.hasApiKey
  let duration ← getattrExtra req "duration"
  let start_date ← getattrExtra req "start_date"
  let difficulty_level ← getattrExtra req "difficulty_level"
  let budget_range ← getattrExtra req "budget_range"
  let interests ← getattrExtra req "interests"
  let group_size ← getattrExtra req "group_size"
  let accommodation_type ← getattrExtra req "accommodation_type"
  let destination_text := "Destination: " ++ req.destination
  let duration_text := "Duration: " ++ duration ++ " days"
  let start_date_text :=
    if start_date ≠ "" then "Start Date: " ++ start_date else "Start Date: not specified"
  let difficulty_text :=
    if difficulty_level ≠ "" then "Difficulty Level: " ++ difficulty_level
    else "Difficulty Level: not specified"
  let budget_text :=
    if budget_range ≠ "" then "Budget Range: " ++ budget_range
    else "Budget Range: not specified"
  let interests_text :=
    if interests ≠ "" then "Interests: " ++ interests else "Interests: not specified"
  let group_size_text := "Group Size: " ++ group_size ++ " people"
  let accommodation_text :=
    if accommodation_type ≠ "" then "Accommodation Type: " ++ accommodation_type
    else "Accommodation Type: not specified"
  let final_prompt := itineraryPromptText d.formatInstructions destination_text
    duration_text start_date_text difficulty_text budget_text interests_text
    group_size_text accommodation_text
  let enhanced_prompt :=
    "\n" ++ final_prompt ++ "\n\nResearch Findings from Agent:\n" ++ agentOutput ++
    "\n\nBased on the research findings above and the user requirements, generate a comprehensive itinerary report in the exact JSON format specified in the format instructions.\nMake sure to:\n1. Create exactly " ++
    duration ++ " day plans\n2. Match activities to the " ++
    (if difficulty_level ≠ "" then difficulty_level else "moderate") ++
    " difficulty level\n3. Keep recommendations within the " ++
    (if budget_range ≠ "" then budget_range else "moderate") ++
    " budget range\n4. Focus on interests: " ++
    (if interests ≠ "" then interests else "general tourism") ++
    "\n5. Ensure activities are suitable for a group of " ++ group_size ++
    "\n6. Recommend " ++
    (if accommodation_type ≠ "" then accommodation_type else "various") ++
    " accommodation types\n7. Use the information gathered from the tools to create accurate and detailed plans\n"
  let llmOut ← d.llmInvoke enhanced_prompt
  match parse d.loads llmOut with
  | .ok itin => pure itin
  | .error e => throw e.toPyExc

/-- The post-parse stages of `generate_itinerary`: coordinate enrichment,
markdown synthesis of the enriched report, and the creation timestamp. -/
def postProcess (d : ServiceDeps) (req : TravelPlanRequest)
    (itin : ItineraryReport) : ItineraryReport :=
  let enriched := enrichReport d.geocode d.parseFloat req.destination itin
  let withMd := { enriched with markdown_description := some (generateMarkdown enriched) }
  { withMd with created_at := some d.now }

/-- The `try` block of `TravelPlanningService.generate_itinerary`. -/
def generateItineraryBody (d : ServiceDeps) (req : TravelPlanRequest) :
    Except PyExc ItineraryReport :=
  (runPipelineToParse d req).map (postProcess d req)

/-- `TravelPlanningService.generate_itinerary`: the `try/except` wrapper that
converts any stage exception into a failed `TravelPlanResponse` and records
the rounded elapsed time on both paths. -/
def generateItinerary (d : ServiceDeps) (req : TravelPlanRequest) :
    TravelPlanResponse :=
  match generateItineraryBody d req with
  | .ok itin =>
      { success := true, itinerary := some itin,
        message := some "Itinerary generated successfully",
        processing_time := some (pyRound2 (d.t1 - d.t0)) }
  | .error e =>
      { success := false, itinerary := none,
        message := some ("Error generating itinerary: " ++ e.toMessage),
        processing_time := some (pyRound2 (d.t1 - d.t0)) }

/-! ## Field collectors used by the statements -/

/-- Boolean success of an `Except` computation. -/
def isOkE {ε α : Type} : Except ε α → Bool
  | .ok _ => true
  | .error _ => false

/-- The rating field of a raw location dictionary, as a (0- or 1-element)
list. -/
def rawLocRatings (l : RawLocation) : List ℚ := l.rating.toList

/-- The `location.rating` walked inside a raw activity dictionary. -/
def rawActivityRatings (a : RawActivity) : List ℚ :=
  (a.location.map rawLocRatings).getD []

/-- The ratings walked inside a raw day-plan dictionary. -/
def rawDayPlanRatings (d : RawDayPlan) : List ℚ :=
  d.activities.flatMap rawActivityRatings

/-- The rating field of a raw accommodation dictionary. -/
def rawAccRatings (a : RawAccommodation) : List ℚ := a.rating.toList

/-- Ratings of an optional list field. -/
def optRatings {α : Type} (f : α → List ℚ) : Option (List α) → List ℚ
  | none => []
  | some l => l.flatMap f

/-- Every rating-bearing field the normalizer walks, in traversal order:
activity locations of the day plans, top attractions, must-visit places,
accommodation recommendations. -/
def rawReportRatings (d : RawReport) : List ℚ :=
  optRatings rawDayPlanRatings d.day_plans ++
  optRatings rawLocRatings d.top_attractions ++
  optRatings rawLocRatings d.must_visit_places ++
  optRatings rawAccRatings d.accommodation_recommendations

/-- The rating of a validated location, as a list. -/
def locRatings (l : Location) : List ℚ := l.rating.toList

/-- The ratings of a validated day plan. -/
def dayPlanRatings (d : DayPlan) : List ℚ :=
  d.activities.flatMap fun a => locRatings a.location

/-- The rating of a validated accommodation. -/
def accRatings (a : Accommodation) : List ℚ := a.rating.toList

/-- Every rating field of a validated report. -/
def reportRatings (it : ItineraryReport) : List ℚ :=
  it.day_plans.flatMap dayPlanRatings ++
  optRatings locRatings it.top_attractions ++
  optRatings locRatings it.must_visit_places ++
  optRatings accRatings it.accommodation_recommendations

/-- Every `Location` object enrichment visits: activity locations of every
day plan, then top attractions, then must-visit places. -/
def reportLocations (it : ItineraryReport) : List Location :=
  (it.day_plans.flatMap fun dp => dp.activities.map fun a => a.location) ++
  (it.top_attractions.getD []) ++ (it.must_visit_places.getD [])

/-- A location carries exactly one of the two coordinates. -/
def exactlyOneCoord (loc : Location) : Bool :=
  (loc.latitude.isSome && loc.longitude.isNone) ||
  (loc.latitude.isNone && loc.longitude.isSome)

/-! ## Markdown sections (for the synthesis factorization) -/

/-- Title section fragments. -/
def titleSecParts (it : ItineraryReport) : List String :=
  ["# " ++ it.destination ++ " Travel Itinerary\n"]

/-- Overview section fragments. -/
def overviewSecParts (it : ItineraryReport) : List String :=
  ["## Overview\n", it.summary ++ "\n", "\n---\n"]

/-- Travel-details section fragments. -/
def travelDetailsSecParts (it : ItineraryReport) : List String :=
  ["## Travel Details\n", "- **Duration:** " ++ toString it.total_days ++ " days\n"] ++
  (if truthyOptStr it.travel_type then
     ["- **Travel Type:** " ++ (it.travel_type.getD "") ++ "\n"] else []) ++
  (if truthyOptStr it.budget_estimate then
     ["- **Estimated Budget:** " ++ (it.budget_estimate.getD "") ++ "\n"] else []) ++
  (if truthyOptStr it.best_time_to_visit then
     ["- **Best Time to Visit:** " ++ (it.best_time_to_visit.getD "") ++ "\n"] else []) ++
  ["\n"]

/-- Day-by-day section fragments. -/
def dayPlansSecParts (it : ItineraryReport) : List String :=
  if it.day_plans.isEmpty then []
  else ["## Day-by-Day Itinerary\n\n"] ++ it.day_plans.flatMap dayPlanParts

/-- Top-attractions section fragments. -/
def topAttractionsSecParts (it : ItineraryReport) : List String :=
  if truthyOptList it.top_attractions then
    ["## Top Attractions\n\n"] ++
    (((it.top_attractions.getD []).take 10).enum.flatMap fun p =>
      attractionParts (p.1 + 1) p.2)
  else []

/-- Must-visit section fragments. -/
def mustVisitSecParts (it : ItineraryReport) : List String :=
  if truthyOptList it.must_visit_places then
    ["## Must-Visit Places\n\n"] ++
    (((it.must_visit_places.getD []).take 10).flatMap mustVisitItemParts) ++ ["\n"]
  else []

/-- Accommodations section fragments. -/
def accommodationsSecParts (it : ItineraryReport) : List String :=
  if truthyOptList it.accommodation_recommendations then
    ["## Accommodation Recommendations\n\n"] ++
    ((it.accommodation_recommendations.getD []).flatMap accommodationParts)
  else []

/-- Transportation section fragments. -/
def transportSecParts (it : ItineraryReport) : List String :=
  if truthyOptList it.transportation_tips then
    ["## Transportation\n\n"] ++
    ((it.transportation_tips.getD []).flatMap transportParts)
  else []

/-- Local-transportation section fragments. -/
def localTransportSecParts (it : ItineraryReport) : List String :=
  if truthyOptStr it.local_transport then
    ["### Local Transportation\n\n" ++ (it.local_transport.getD "") ++ "\n\n"] else []

/-- General-tips section fragments. -/
def generalTipsSecParts (it : ItineraryReport) : List String :=
  if truthyOptList it.general_tips then
    ["## General Travel Tips\n\n"] ++
    ((it.general_tips.getD []).map fun tip => "- " ++ tip ++ "\n") ++ ["\n"]
  else []

/-- Cultural-notes section fragments. -/
def culturalSecParts (it : ItineraryReport) : List String :=
  if truthyOptList it.cultural_notes then
    ["## Cultural Information\n\n"] ++
    ((it.cultural_notes.getD []).map fun note => "- " ++ note ++ "\n") ++ ["\n"]
  else []

/-- Weather section fragments. -/
def weatherSecParts (it : ItineraryReport) : List String :=
  if truthyOptStr it.weather_info then
    ["## Weather Information\n\n", (it.weather_info.getD "") ++ "\n\n"] else []

/-- Best-time section fragments. -/
def bestTimeSecParts (it : ItineraryReport) : List String :=
  if truthyOptStr it.best_time_to_visit then
    ["## Best Time to Visit\n\n", (it.best_time_to_visit.getD "") ++ "\n\n"] else []

/-- The rendered text of one markdown section. -/
def secText (parts : ItineraryReport → List String) (it : ItineraryReport) : String :=
  String.join (parts it)

/-! ## Concrete scenarios -/

/-- A geocoder that always raises. -/
def geoRaise : String → Except Unit (Option String) := fun _ => .error ()

/-- A Python `float` that always fails. -/
def floatNever : String → Option ℚ := fun _ => none

/-- A `json.loads` that always fails to decode. -/
def loadsNever : String → Except String RawReport :=
  fun _ => .error "Expecting value: line 1 column 1 (char 0)"

/-- A request carrying only declared fields (no extras). -/
def reqPlain : TravelPlanRequest :=
  { destination := "Paris", days := some 3, origin := some "New York",
    travel_type := some "cultural", budget := some "medium",
    preferences := some "museums", date := some "June 2024", notes := none,
    extra := [] }

/-- A deployment with no generation credential configured. -/
def depsNoKey : ServiceDeps :=
  { hasApiKey := false, formatInstructions := "FORMAT", 
    agentInvoke := fun _ => .ok (some "research findings"),
    llmInvoke := fun _ => .ok "", loads := loadsNever, geocode := geoRaise,
    parseFloat := floatNever, now := "2025-01-01 00:00:00", t0 := 0, t1 := 1 }

/-- A deployment with a credential but otherwise inert collaborators. -/
def depsKeyed : ServiceDeps :=
  { hasApiKey := true, formatInstructions := "FORMAT",
    agentInvoke := fun _ => .ok (some "research findings"),
    llmInvoke := fun _ => .ok "free text with no json",
    loads := loadsNever, geocode := geoRaise,
    parseFloat := floatNever, now := "2025-01-01 00:00:00", t0 := 0, t1 := 1 }

/-- A raw day-plan dictionary with a day number and title only. -/
def rawDayStub (n : Int) (t : String) : RawDayPlan :=
  { day_number := some n, date := none, title := some t, description := none,
    theme := none, activities := [], estimated_cost := none, notes := none,
    highlights := none }

/-- The dictionary `json.loads` yields on the five-day scenario output:
`total_days = 5` but only two day plans. -/
def rawC1 : RawReport :=
  { summary := some "Trip", destination := some "Paris", total_days := some 5,
    travel_type := none, budget_estimate := none,
    day_plans := some [rawDayStub 1 "Day one", rawDayStub 2 "Day two"],
    top_attractions := none, must_visit_places := none,
    accommodation_recommendations := none, transportation_tips := none,
    local_transport := none, general_tips := none, cultural_notes := none,
    best_time_to_visit := none, weather_info := none, destination_image := none,
    cover_image := none, created_at := none, last_updated := none,
    markdown_description := none }

/-- The generation output of the five-day scenario: a well-formed JSON
document with two day plans. -/
def llmTextC1 : String :=
  "\x7b\"summary\": \"Trip\", \"destination\": \"Paris\", \"total_days\": 5, " ++
  "\"day_plans\": [\x7b\"day_number\": 1, \"title\": \"Day one\"\x7d, " ++
  "\x7b\"day_number\": 2, \"title\": \"Day two\"\x7d]\x7d"

/-- `json.loads` restricted to the scenario document (it decodes exactly the
text above to `rawC1`, and reports a decode error on anything else). -/
def loadsC1 : String → Except String RawReport := fun s =>
  if s = llmTextC1 then .ok rawC1
  else .error "Expecting value: line 1 column 1 (char 0)"

/-- The five-day request: the client sent the extra fields the service
reads, with `duration = 5`. -/
def reqC1 : TravelPlanRequest :=
  { destination := "Paris", days := some 5, origin := none,
    travel_type := none, budget := none, preferences := none, date := none,
    notes := none,
    extra := [("duration", "5"), ("start_date", "2025-06-01"),
              ("difficulty_level", "easy"), ("budget_range", "medium"),
              ("interests", "museums"), ("group_size", "2"),
              ("accommodation_type", "hotel")] }

/-- Dependencies for the five-day scenario: agent and generation succeed,
the generation client returns the two-day-plan document, geocoding raises. -/
def depsC1 : ServiceDeps :=
  { hasApiKey := true, formatInstructions := "FORMAT",
    agentInvoke := fun _ => .ok (some "research findings"),
    llmInvoke := fun _ => .ok llmTextC1, loads := loadsC1, geocode := geoRaise,
    parseFloat := floatNever, now := "2025-01-01 00:00:00", t0 := 0, t1 := 1 }

/-- A location on the equator: both coordinates are set, latitude is `0.0`. -/
def locEquator : Location :=
  { name := "Null Island", address := some "Gulf of Guinea",
    latitude := some 0, longitude := some 10, rating := none,
    review_count := none, category := none, image_url := none,
    image_alt := none }

/-- A geocoder returning a well-formed `"lat,lng"` response. -/
def geoC6 : String → Except Unit (Option String) := fun _ => .ok (some "5.0, 6.0")

/-- Python `float` on the two decimal literals of the response above. -/
def floatC6 : String → Option ℚ := fun s =>
  if s = "5.0" then some 5 else if s = "6.0" then some 6 else none

/-- A minimal report whose only location is `locEquator`, listed among the
top attractions. -/
def reportC6 : ItineraryReport :=
  { summary := "S", destination := "Paris", total_days := 1,
    travel_type := none, budget_estimate := none,
    day_plans := [{ day_number := 1, date := none, title := "Day one",
                    description := none, theme := none, activities := [],
                    estimated_cost := none, notes := none, highlights := none }],
    top_attractions := some [locEquator], must_visit_places := none,
    accommodation_recommendations := none, transportation_tips := none,
    local_transport := none, general_tips := none, cultural_notes := none,
    best_time_to_visit := none, weather_info := none, destination_image := none,
    cover_image := none, created_at := none, last_updated := none,
    markdown_description := none }

/-- A location with both coordinates set and a nonzero latitude. -/
def locSet : Location :=
  { name := "Eiffel Tower", address := some "Paris",
    latitude := some 48, longitude := some 2, rating := some 4,
    review_count := some 1000, category := some "monument", image_url := none,
    image_alt := none }

/-- A raw report with one in-range rating among the top attractions. -/
def rawC2 : RawReport :=
  { summary := some "S", destination := some "D", total_days := some 1,
    travel_type := none, budget_estimate := none,
    day_plans := some [rawDayStub 1 "Day one"],
    top_attractions := some [{ name := some "Louvre", address := none,
                               latitude := none, longitude := none,
                               rating := some 4, review_count := none,
                               category := none, image_url := none,
                               image_alt := none }],
    must_visit_places := none, accommodation_recommendations := none,
    transportation_tips := none, local_transport := none, general_tips := none,
    cultural_notes := none, best_time_to_visit := none, weather_info := none,
    destination_image := none, cover_image := none, created_at := none,
    last_updated := none, markdown_description := none }

/-- The validated report for `rawC2`. -/
def repC2 : ItineraryReport :=
  { summary := "S", destination := "D", total_days := 1,
    travel_type := none, budget_estimate := none,
    day_plans := [{ day_number := 1, date := none, title := "Day one",
                    description := none, theme := none, activities := [],
                    estimated_cost := none, notes := none, highlights := none }],
    top_attractions := some [{ name := "Louvre", address := none,
                               latitude := none, longitude := none,
                               rating := some 4, review_count := none,
                               category := none, image_url := none,
                               image_alt := none }],
    must_visit_places := none, accommodation_recommendations := none,
    transportation_tips := none, local_transport := none, general_tips := none,
    cultural_notes := none, best_time_to_visit := none, weather_info := none,
    destination_image := none, cover_image := none, created_at := none,
    last_updated := none, markdown_description := none }

/-- A small report exercising several markdown sections. -/
def reportC10 : ItineraryReport :=
  { summary := "Two days in Paris", destination := "Paris", total_days := 2,
    travel_type := some "cultural", budget_estimate := none,
    day_plans := [{ day_number := 1, date := none, title := "Museums",
                    description := some "A relaxed day",
                    theme := none,
                    activities := [{ name := "Louvre visit",
                                     description := none,
                                     location := locSet,
                                     start_time := some "09:00",
                                     end_time := some "12:00",
                                     duration_hours := none,
                                     cost_estimate := some "20 EUR",
                                     tips := some ["book ahead"],
                                     priority := some 1, image_url := none,
                                     booking_info := none }],
                    estimated_cost := none, notes := none,
                    highlights := some ["art"] }],
    top_attractions := some [locSet], must_visit_places := none,
    accommodation_recommendations := none, transportation_tips := none,
    local_transport := none, general_tips := some ["Learn basic French"],
    cultural_notes := none, best_time_to_visit := none,
    weather_info := some "Mild", destination_image := none, cover_image := none,
    created_at := none, last_updated := none, markdown_description := none }

/-! ## Generic helper lemmas -/

theorem strFoldlAppend (l : List String) :
    ∀ s : String, l.foldl (· ++ ·) s = s ++ String.join l := by
  induction l with
  | nil => intro s; simp [String.join]
  | cons a t ih =>
      intro s
      show List.foldl (· ++ ·) (s ++ a) t = s ++ String.join (a :: t)
      rw [ih (s ++ a)]
      show s ++ a ++ String.join t = s ++ List.foldl (· ++ ·) ("" ++ a) t
      rw [ih ("" ++ a)]
      simp [String.append_assoc]

theorem strJoin_append (l1 l2 : List String) :
    String.join (l1 ++ l2) = String.join l1 ++ String.join l2 := by
  show List.foldl (· ++ ·) "" (l1 ++ l2) = _
  rw [List.foldl_append, strFoldlAppend l1 "", strFoldlAppend l2]
  simp

theorem strJoin_cons (s : String) (l : List String) :
    String.join (s :: l) = s ++ String.join l := by
  show List.foldl (· ++ ·) ("" ++ s) l = _
  rw [strFoldlAppend l]
  simp

theorem strAppend_ne_empty (a b : String) (h : a.length ≠ 0) : a ++ b ≠ "" := by
  intro he
  have hl := congrArg String.length he
  rw [String.length_append] at hl
  have h0 : ("" : String).length = 0 := rfl
  omega

/-! ## Enrichment lemmas -/

theorem enrichLocation_of_lookup_failure (g : String → Except Unit (Option String))
    (p : String → Option ℚ) (dest : String) (loc : Location)
    (h : getCoords g p dest loc.name loc.address = (none, none)) :
    enrichLocation g p dest loc = loc := by
  unfold enrichLocation
  split
  · rfl
  · rw [h]

theorem enrichLocation_truthy_latitude (g : String → Except Unit (Option String))
    (p : String → Option ℚ) (dest : String) (loc : Location)
    (h : truthyOptQ loc.latitude = true) :
    enrichLocation g p dest loc = loc := by
  unfold enrichLocation
  simp [h]

theorem reportLocations_enrich (g : String → Except Unit (Option String))
    (p : String → Option ℚ) (dest : String) (it : ItineraryReport) :
    reportLocations (enrichReport g p dest it) =
      (reportLocations it).map (enrichLocation g p dest) := by
  unfold reportLocations enrichReport
  simp only [List.map_append]
  congr 1
  · congr 1
    · rw [List.flatMap_map, List.map_flatMap]
      congr 1
      funext dp
      simp [List.map_map, Function.comp]
    · cases it.top_attractions <;> simp
  · cases it.must_visit_places <;> simp

theorem enrichLocation_not_exactlyOne (g : String → Except Unit (Option String))
    (p : String → Option ℚ) (dest : String) (loc : Location)
    (h : exactlyOneCoord loc = false) :
    exactlyOneCoord (enrichLocation g p dest loc) = false := by
  unfold enrichLocation
  split
  · exact h
  · split
    · split
      · simp [exactlyOneCoord]
      · exact h
    · exact h

theorem enrichReport_all_truthy (g : String → Except Unit (Option String))
    (p : String → Option ℚ) (dest : String) (it : ItineraryReport)
    (h : ∀ loc ∈ reportLocations it, truthyOptQ loc.latitude = true) :
    enrichReport g p dest it = it := by
  have hd : it.day_plans.map (fun dp =>
      { dp with activities := dp.activities.map fun a =>
          { a with location := enrichLocation g p dest a.location } }) = it.day_plans := by
    conv_rhs => rw [← List.map_id it.day_plans]
    apply List.map_congr_left
    intro dp hdp
    have ha : dp.activities.map (fun a =>
        { a with location := enrichLocation g p dest a.location }) = dp.activities := by
      conv_rhs => rw [← List.map_id dp.activities]
      apply List.map_congr_left
      intro a hact
      have hloc : enrichLocation g p dest a.location = a.location := by
        apply enrichLocation_truthy_latitude
        apply h
        unfold reportLocations
        refine List.mem_append_left _ (List.mem_append_left _ ?_)
        exact List.mem_flatMap.mpr ⟨dp, hdp, List.mem_map.mpr ⟨a, hact, rfl⟩⟩
      rw [hloc]
      rfl
    rw [ha]
    rfl
  have hta : it.top_attractions.map (List.map (enrichLocation g p dest)) =
      it.top_attractions := by
    cases hta0 : it.top_attractions with
    | none => rfl
    | some l =>
        simp only [Option.map_some']
        congr 1
        conv_rhs => rw [← List.map_id l]
        apply List.map_congr_left
        intro loc hl
        apply enrichLocation_truthy_latitude
        apply h
        unfold reportLocations
        refine List.mem_append_left _ (List.mem_append_right _ ?_)
        simp [hta0, hl]
  have hmv : it.must_visit_places.map (List.map (enrichLocation g p dest)) =
      it.must_visit_places := by
    cases hmv0 : it.must_visit_places with
    | none => rfl
    | some l =>
        simp only [Option.map_some']
        congr 1
        conv_rhs => rw [← List.map_id l]
        apply List.map_congr_left
        intro loc hl
        apply enrichLocation_truthy_latitude
        apply h
        unfold reportLocations
        refine List.mem_append_right _ ?_
        simp [hmv0, hl]
  unfold enrichReport
  rw [hd, hta, hmv]

theorem getCoords_geocode_raises (g : String → Except Unit (Option String))
    (p : String → Option ℚ) (dest pn : String) (addr : Option String)
    (h : g (coordQuery dest pn addr) = .error ()) :
    getCoords g p dest pn addr = (none, none) := by
  unfold getCoords getPlaceCoordinates
  rw [h]

theorem getCoords_geocode_none (g : String → Except Unit (Option String))
    (p : String → Option ℚ) (dest pn : String) (addr : Option String)
    (h : g (coordQuery dest pn addr) = .ok none) :
    getCoords g p dest pn addr = (none, none) := by
  unfold getCoords getPlaceCoordinates
  rw [h]

theorem getCoords_malformed (g : String → Except Unit (Option String))
    (p : String → Option ℚ) (dest pn : String) (addr : Option String)
    (s : String) (h : g (coordQuery dest pn addr) = .ok (some s))
    (h2 : (pySplitComma s).length ≠ 2) :
    getCoords g p dest pn addr = (none, none) := by
  unfold getCoords getPlaceCoordinates
  split
  · rfl
  · rfl
  · rename_i x s' heq
    rw [h] at heq
    have hs : s' = s := by
      injection heq with h1
      injection h1 with h2
      exact h2.symm
    subst hs
    split
    · split
      · rename_i a b hsp
        rw [hsp] at h2
        simp at h2
      · rfl
    · rfl

theorem getCoords_float_fails (g : String → Except Unit (Option String))
    (p : String → Option ℚ) (dest pn : String) (addr : Option String)
    (s a b : String) (h : g (coordQuery dest pn addr) = .ok (some s))
    (hsplit : pySplitComma s = [a, b])
    (hp : p (pyStrip a) = none ∨ p (pyStrip b) = none) :
    getCoords g p dest pn addr = (none, none) := by
  unfold getCoords getPlaceCoordinates
  split
  · rfl
  · rfl
  · rename_i x s' heq
    rw [h] at heq
    have hs : s' = s := by
      injection heq with h1
      injection h1 with h2
      exact h2.symm
    subst hs
    split
    · rw [hsplit]
      show (match p (pyStrip a), p (pyStrip b) with
            | some la, some lo => (some la, some lo)
            | _, _ => (none, none)) = (none, none)
      rcases hp with hp | hp <;> rw [hp]
      all_goals cases p (pyStrip a) <;> rfl
    · rfl

/-! ## Claim theorems: enrichment (C3, C6, C7) -/

/-- C3: coordinate enrichment is best-effort. A geocoding lookup that raises,
returns no result, returns a malformed response, or whose floats fail to
parse yields `(None, None)` and leaves the location unchanged; enrichment
visits each location independently; and the outcome's success flag does not
depend on the geocoding adapter or float parser at all, so no enrichment
failure can fail the pipeline. -/
theorem c3_enrichment_best_effort :
    (∀ (g : String → Except Unit (Option String)) (p : String → Option ℚ)
        (dest : String) (loc : Location),
        getCoords g p dest loc.name loc.address = (none, none) →
        enrichLocation g p dest loc = loc) ∧
    (∀ g p dest pn (addr : Option String), g (coordQuery dest pn addr) = .error () →
        getCoords g p dest pn addr = (none, none)) ∧
    (∀ g p dest pn (addr : Option String), g (coordQuery dest pn addr) = .ok none →
        getCoords g p dest pn addr = (none, none)) ∧
    (∀ g p dest pn (addr : Option String) s,
        g (coordQuery dest pn addr) = .ok (some s) →
        (pySplitComma s).length ≠ 2 → getCoords g p dest pn addr = (none, none)) ∧
    (∀ g p dest pn (addr : Option String) s a b,
        g (coordQuery dest pn addr) = .ok (some s) → pySplitComma s = [a, b] →
        (p (pyStrip a) = none ∨ p (pyStrip b) = none) →
        getCoords g p dest pn addr = (none, none)) ∧
    (∀ g p dest (it : ItineraryReport),
        reportLocations (enrichReport g p dest it) =
          (reportLocations it).map (enrichLocation g p dest)) ∧
    (∀ (d : ServiceDeps) (req : TravelPlanRequest) g' p',
        (generateItinerary { d with geocode := g', parseFloat := p' } req).success =
          (generateItinerary d req).success) := by
  refine ⟨enrichLocation_of_lookup_failure, getCoords_geocode_raises,
    getCoords_geocode_none, getCoords_malformed, getCoords_float_fails,
    reportLocations_enrich, ?_⟩
  intro d req g' p'
  have hr : runPipelineToParse { d with geocode := g', parseFloat := p' } req =
      runPipelineToParse d req := rfl
  unfold generateItinerary generateItineraryBody
  rw [hr]
  cases runPipelineToParse d req <;> rfl

/-- Witness for C3 at concrete inputs: a raising geocoder leaves the equator
location unchanged, an explicit lookup fails to `(None, None)`, and swapping
in a succeeding geocoder does not change the concrete outcome's success. -/
theorem c3_witness :
    enrichLocation geoRaise floatNever "Paris" locEquator = locEquator ∧
    getCoords geoRaise floatNever "Paris" "Louvre" (some "Paris") = (none, none) ∧
    (generateItinerary { depsC1 with geocode := geoC6, parseFloat := floatC6 } reqC1).success =
      (generateItinerary depsC1 reqC1).success := by
  obtain ⟨h1, h2, -, -, -, -, h7⟩ := c3_enrichment_best_effort
  exact ⟨h1 geoRaise floatNever "Paris" locEquator (by decide),
    h2 geoRaise floatNever "Paris" "Louvre" (some "Paris") rfl,
    h7 depsC1 reqC1 geoC6 floatC6⟩

/-- C6 counterexample: a location with both coordinates set but latitude
`0.0` (the equator) is re-geocoded and modified, because the guard uses
Python truthiness (`not location.latitude`) rather than a `None` check; the
same happens to the location inside a report's top attractions. -/
theorem c6_counterexample :
    locEquator.latitude.isSome = true ∧ locEquator.longitude.isSome = true ∧
    enrichLocation geoC6 floatC6 "Paris" locEquator ≠ locEquator ∧
    (enrichLocation geoC6 floatC6 "Paris" locEquator).latitude = some 5 ∧
    (enrichLocation geoC6 floatC6 "Paris" locEquator).longitude = some 6 ∧
    (enrichReport geoC6 floatC6 "Paris" reportC6).top_attractions =
      some [{ locEquator with latitude := some 5, longitude := some 6 }] := by
  decide

/-- C6 (amended): coordinate enrichment is idempotent on locations whose
latitude is truthy (set and nonzero): such a location is never modified, and
a report all of whose locations have truthy latitude is returned unchanged.
(A location with latitude `0.0` does not qualify, even with both
coordinates set.) -/
theorem c6_amended_enrichment_skips_truthy_latitude
    (g : String → Except Unit (Option String)) (p : String → Option ℚ)
    (dest : String) (loc : Location) (it : ItineraryReport)
    (h1 : truthyOptQ loc.latitude = true)
    (h2 : ∀ l ∈ reportLocations it, truthyOptQ l.latitude = true) :
    enrichLocation g p dest loc = loc ∧ enrichReport g p dest it = it :=
  ⟨enrichLocation_truthy_latitude g p dest loc h1,
   enrichReport_all_truthy g p dest it h2⟩

/-- Witness for the amended C6: the fully-populated Eiffel Tower location and
a report containing it are unchanged by enrichment under a live geocoder. -/
theorem c6_witness :
    enrichLocation geoC6 floatC6 "Paris" locSet = locSet ∧
    enrichReport geoC6 floatC6 "Paris" reportC10 = reportC10 :=
  c6_amended_enrichment_skips_truthy_latitude geoC6 floatC6 "Paris" locSet
    reportC10 (by decide) (by decide)

/-- C7: enrichment never produces a location with exactly one coordinate
set: a location that does not have exactly one of latitude/longitude before
enrichment still does not afterwards (the pair is only ever assigned
together), both location-wise and across a whole report. -/
theorem c7_no_partial_coordinate_assignment
    (g : String → Except Unit (Option String)) (p : String → Option ℚ)
    (dest : String) :
    (∀ loc : Location, exactlyOneCoord loc = false →
        exactlyOneCoord (enrichLocation g p dest loc) = false) ∧
    (∀ it : ItineraryReport,
        (∀ loc ∈ reportLocations it, exactlyOneCoord loc = false) →
        ∀ loc ∈ reportLocations (enrichReport g p dest it),
          exactlyOneCoord loc = false) := by
  refine ⟨fun loc h => enrichLocation_not_exactlyOne g p dest loc h, ?_⟩
  intro it hall loc hmem
  rw [reportLocations_enrich] at hmem
  obtain ⟨loc0, hmem0, rfl⟩ := List.mem_map.mp hmem
  exact enrichLocation_not_exactlyOne g p dest loc0 (hall loc0 hmem0)

/-- Witness for C7 at concrete inputs: the equator location (both set) stays
free of partial coordinates under a live geocoder, as does every location of
a concrete report. -/
theorem c7_witness :
    exactlyOneCoord (enrichLocation geoC6 floatC6 "Paris" locEquator) = false ∧
    (∀ loc ∈ reportLocations (enrichReport geoC6 floatC6 "Paris" reportC10),
        exactlyOneCoord loc = false) := by
  have h := c7_no_partial_coordinate_assignment geoC6 floatC6 "Paris"
  exact ⟨h.1 locEquator (by decide), h.2 reportC10 (by decide)⟩

/-! ## Service lemmas and claims (C4, C5, C9) -/

theorem pyRoundInt_nonneg {q : ℚ} (h : 0 ≤ q) : 0 ≤ pyRoundInt q := by
  unfold pyRoundInt
  have hf : (0 : ℤ) ≤ ⌊q⌋ := Int.floor_nonneg.mpr h
  simp only []
  split
  · exact hf
  · split
    · omega
    · split
      · exact hf
      · omega

theorem pyRound2_nonneg {q : ℚ} (h : 0 ≤ q) : 0 ≤ pyRound2 q := by
  unfold pyRound2
  have h1 : (0 : ℚ) ≤ q * 100 := by positivity
  have h2 := pyRoundInt_nonneg h1
  have h3 : (0 : ℚ) ≤ (pyRoundInt (q * 100) : ℚ) := by exact_mod_cast h2
  positivity

/-- C5: the service never lets a stage exception escape: any exception `e`
raised in the `try` block yields a returned outcome with `success = false`
and the message derived from `str(e)`, and on every run (success or
failure) the recorded `processing_time` is populated and nonnegative
whenever the second clock sample is not before the first. -/
theorem c5_failures_become_outcomes (d : ServiceDeps) (req : TravelPlanRequest)
    (h : d.t0 ≤ d.t1) :
    (∀ e, generateItineraryBody d req = .error e →
        generateItinerary d req =
          { success := false, itinerary := none,
            message := some ("Error generating itinerary: " ++ e.toMessage),
            processing_time := some (pyRound2 (d.t1 - d.t0)) }) ∧
    (∃ p, (generateItinerary d req).processing_time = some p ∧ 0 ≤ p) := by
  have hnn : (0 : ℚ) ≤ pyRound2 (d.t1 - d.t0) := pyRound2_nonneg (by linarith)
  constructor
  · intro e he
    unfold generateItinerary
    rw [he]
  · unfold generateItinerary
    cases generateItineraryBody d req <;> exact ⟨_, rfl, hnn⟩

/-- Witness for C5: on the concrete no-credential run the failure is
converted into an outcome and the recorded time is nonnegative. -/
theorem c5_witness :
    (∀ e, generateItineraryBody depsNoKey reqPlain = .error e →
        generateItinerary depsNoKey reqPlain =
          { success := false, itinerary := none,
            message := some ("Error generating itinerary: " ++ e.toMessage),
            processing_time := some (pyRound2 (depsNoKey.t1 - depsNoKey.t0)) }) ∧
    (∃ p, (generateItinerary depsNoKey reqPlain).processing_time = some p ∧ 0 ≤ p) :=
  c5_failures_become_outcomes depsNoKey reqPlain (by norm_num [depsNoKey])

/-- C4: a request body carrying only the declared `TravelPlanRequest` fields
(so no `duration` extra) always produces a failed outcome: with a
credential configured the pipeline raises `AttributeError` on
`request.duration` (the first undeclared attribute read), which the
catch-all converts into `success = false`; without a credential it fails
even earlier, still with `success = false`. -/
theorem c4_declared_fields_only_fails (d : ServiceDeps) (req : TravelPlanRequest)
    (h : req.extra = []) :
    (generateItinerary d req).success = false ∧
    (d.hasApiKey = true →
        generateItineraryBody d req =
          .error (.attributeError "TravelPlanRequest" "duration")) := by
  have hbody : d.hasApiKey = true →
      generateItineraryBody d req =
        .error (.attributeError "TravelPlanRequest" "duration") := by
    intro hk
    unfold generateItineraryBody runPipelineToParse prepareAgentInput getattrExtra
    simp [hk, h, getGeminiLlm, Bind.bind, Except.bind, Except.map]
  constructor
  · cases hk : d.hasApiKey with
    | true =>
        unfold generateItinerary
        rw [hbody hk]
    | false =>
        unfold generateItinerary generateItineraryBody runPipelineToParse
        simp [getGeminiLlm, hk, Bind.bind, Except.bind, Except.map]
  · exact hbody

/-- Witness for C4: the concrete declared-fields-only request fails, with
the `AttributeError` on `duration` as the recorded stage exception. -/
theorem c4_witness :
    (generateItinerary depsKeyed reqPlain).success = false ∧
    generateItineraryBody depsKeyed reqPlain =
      .error (.attributeError "TravelPlanRequest" "duration") := by
  have h := c4_declared_fields_only_fails depsKeyed reqPlain rfl
  exact ⟨h.1, h.2 rfl⟩

/-- C9 counterexample: with no credential configured, the configuration
error is not raised to the service's caller: the concrete run returns an
ordinary failed outcome (`success = false` with the wrapped message and no
itinerary), exactly like any other stage failure. -/
theorem c9_counterexample_config_error_is_wrapped :
    (generateItinerary depsNoKey reqPlain).success = false ∧
    (generateItinerary depsNoKey reqPlain).itinerary = none ∧
    (generateItinerary depsNoKey reqPlain).message =
      some "Error generating itinerary: GOOGLE_API_KEY is required. Set it in environment variables or settings." := by
  decide

/-- C9 (amended): when no credential is configured, `get_gemini_llm` raises
its descriptive `ValueError` at first use inside the pipeline, but
`generate_itinerary`'s catch-all wraps it into a failed outcome
(`success = false`, message derived from the error) instead of raising it
to the caller. -/
theorem c9_amended_config_error_fails_outcome (d : ServiceDeps)
    (req : TravelPlanRequest) (h : d.hasApiKey = false) :
    getGeminiLlm d.hasApiKey =
      .error (.valueError
        "GOOGLE_API_KEY is required. Set it in environment variables or settings.") ∧
    generateItineraryBody d req =
      .error (.valueError
        "GOOGLE_API_KEY is required. Set it in environment variables or settings.") ∧
    (generateItinerary d req).success = false ∧
    (generateItinerary d req).message =
      some "Error generating itinerary: GOOGLE_API_KEY is required. Set it in environment variables or settings." := by
  have h1 : getGeminiLlm d.hasApiKey =
      .error (.valueError
        "GOOGLE_API_KEY is required. Set it in environment variables or settings.") := by
    rw [h]; rfl
  have h2 : generateItineraryBody d req =
      .error (.valueError
        "GOOGLE_API_KEY is required. Set it in environment variables or settings.") := by
    unfold generateItineraryBody runPipelineToParse
    rw [h]
    rfl
  have hmsg : "Error generating itinerary: " ++
      "GOOGLE_API_KEY is required. Set it in environment variables or settings." =
      "Error generating itinerary: GOOGLE_API_KEY is required. Set it in environment variables or settings." := by
    decide
  refine ⟨h1, h2, ?_, ?_⟩
  · unfold generateItinerary
    rw [h2]
  · unfold generateItinerary
    rw [h2]
    simp [PyExc.toMessage, hmsg]

/-- Witness for the amended C9. -/
theorem c9_witness :
    generateItineraryBody depsNoKey reqPlain =
      .error (.valueError
        "GOOGLE_API_KEY is required. Set it in environment variables or settings.") ∧
    (generateItinerary depsNoKey reqPlain).success = false :=
  ⟨(c9_amended_config_error_fails_outcome depsNoKey reqPlain rfl).2.1,
   (c9_amended_config_error_fails_outcome depsNoKey reqPlain rfl).2.2.1⟩

/-! ## Parse-shape lemmas and claim C8 -/

theorem parse_eq_main {loads : String → Except String RawReport} {text : String}
    {raw : RawReport} (h1 : loads (extractJson text) = .ok raw) :
    parse loads text =
      match validateReport (normalizeRatings raw) with
      | .ok rep => .ok rep
      | .error v => .error (.itineraryValueError ("Failed to parse itinerary: " ++ v)) := by
  simp only [parse]
  rw [h1]

theorem parse_eq_noJson {loads : String → Except String RawReport} {text m : String}
    (h1 : loads (extractJson text) = .error m)
    (h2 : extractJsonFromText (extractJson text) = none) :
    parse loads text =
      .error (.parseValueError ("Failed to parse JSON from output: " ++ m)) := by
  simp only [parse]
  rw [h1, h2]

theorem parse_eq_fallback_fail {loads : String → Except String RawReport}
    {text m j m2 : String} (h1 : loads (extractJson text) = .error m)
    (h2 : extractJsonFromText (extractJson text) = some j)
    (h3 : loads j = .error m2) :
    parse loads text = .error (.jsonDecode m2) := by
  simp only [parse]
  rw [h1, h2]
  show (match loads j with
        | Except.ok data =>
          match validateReport (normalizeRatings data) with
          | Except.ok rep => Except.ok rep
          | Except.error vmsg => Except.error (ParseErr.validationRaw vmsg)
        | Except.error m0 => Except.error (ParseErr.jsonDecode m0)) = _
  rw [h3]

theorem parse_eq_fallback_ok {loads : String → Except String RawReport}
    {text m j : String} {raw : RawReport}
    (h1 : loads (extractJson text) = .error m)
    (h2 : extractJsonFromText (extractJson text) = some j)
    (h3 : loads j = .ok raw) :
    parse loads text =
      match validateReport (normalizeRatings raw) with
      | .ok rep => .ok rep
      | .error v => .error (.validationRaw v) := by
  simp only [parse]
  rw [h1, h2]
  show (match loads j with
        | Except.ok data =>
          match validateReport (normalizeRatings data) with
          | Except.ok rep => Except.ok rep
          | Except.error vmsg => Except.error (ParseErr.validationRaw vmsg)
        | Except.error m0 => Except.error (ParseErr.jsonDecode m0)) = _
  rw [h3]

/-- C8: the parser fails with a parse-kind error (a JSON decode failure)
exactly when the stripped text does not decode and the first-brace/last-brace
fallback is absent or does not decode either; parse-kind and
validation-kind errors are disjoint; and whenever JSON was successfully
decoded (main path or fallback path), any failure is a validation-kind
error — the ValidationError is distinct from the ParseError. -/
theorem c8_parse_error_taxonomy (loads : String → Except String RawReport)
    (text : String) :
    ((∃ e, parse loads text = .error e ∧ e.isParseKind = true) ↔
      (isOkE (loads (extractJson text)) = false ∧
        (extractJsonFromText (extractJson text) = none ∨
          ∃ j, extractJsonFromText (extractJson text) = some j ∧
            isOkE (loads j) = false))) ∧
    (∀ e : ParseErr, e.isParseKind = true → e.isValidationKind = false) ∧
    (∀ raw, loads (extractJson text) = .ok raw →
        ∀ e, parse loads text = .error e → e.isValidationKind = true) ∧
    (∀ j raw, extractJsonFromText (extractJson text) = some j →
        loads j = .ok raw →
        ∀ e, parse loads text = .error e → e.isValidationKind = true) := by
  have hdisj : ∀ e : ParseErr, e.isParseKind = true → e.isValidationKind = false := by
    intro e he
    cases e <;> simp_all [ParseErr.isParseKind, ParseErr.isValidationKind]
  have hmain : ∀ raw, loads (extractJson text) = .ok raw →
      ∀ e, parse loads text = .error e → e.isValidationKind = true := by
    intro raw h1 e he
    rw [parse_eq_main h1] at he
    cases hv : validateReport (normalizeRatings raw) with
    | ok rep => rw [hv] at he; exact Except.noConfusion he
    | error v =>
        rw [hv] at he
        injection he with he
        subst he
        rfl
  refine ⟨?_, hdisj, hmain, ?_⟩
  · cases h1 : loads (extractJson text) with
    | ok raw =>
        rw [parse_eq_main h1]
        constructor
        · rintro ⟨e, he, hkind⟩
          exfalso
          cases hv : validateReport (normalizeRatings raw) with
          | ok rep => rw [hv] at he; exact Except.noConfusion he
          | error v =>
              rw [hv] at he
              injection he with he
              subst he
              simp [ParseErr.isParseKind] at hkind
        · rintro ⟨habs, -⟩
          simp [isOkE] at habs
    | error m =>
        cases h2 : extractJsonFromText (extractJson text) with
        | none =>
            rw [parse_eq_noJson h1 h2]
            constructor
            · intro _
              exact ⟨rfl, Or.inl rfl⟩
            · intro _
              exact ⟨.parseValueError ("Failed to parse JSON from output: " ++ m),
                rfl, rfl⟩
        | some j =>
            cases h3 : loads j with
            | ok raw2 =>
                rw [parse_eq_fallback_ok h1 h2 h3]
                constructor
                · rintro ⟨e, he, hkind⟩
                  exfalso
                  cases hv : validateReport (normalizeRatings raw2) with
                  | ok rep => rw [hv] at he; exact Except.noConfusion he
                  | error v =>
                      rw [hv] at he
                      injection he with he
                      subst he
                      simp [ParseErr.isParseKind] at hkind
                · rintro ⟨-, hor⟩
                  rcases hor with hnone | ⟨j', hj', habs⟩
                  · exact Option.noConfusion hnone
                  · injection hj' with hj'
                    subst hj'
                    rw [h3] at habs
                    simp [isOkE] at habs
            | error m2 =>
                rw [parse_eq_fallback_fail h1 h2 h3]
                constructor
                · intro _
                  refine ⟨rfl, Or.inr ⟨j, rfl, by rw [h3]; rfl⟩⟩
                · intro _
                  exact ⟨.jsonDecode m2, rfl, rfl⟩
  · intro j raw h2 h3 e he
    cases h1 : loads (extractJson text) with
    | ok raw0 => exact hmain raw0 h1 e he
    | error m =>
        rw [parse_eq_fallback_ok h1 h2 h3] at he
        cases hv : validateReport (normalizeRatings raw) with
        | ok rep => rw [hv] at he; exact Except.noConfusion he
        | error v =>
            rw [hv] at he
            injection he with he
            subst he
            rfl

/-- Witness for C8 at a concrete input: free text with no JSON object fails
with the parse-kind ParseError, via the characterization. -/
theorem c8_witness :
    ∃ e, parse loadsNever "free text with no json object anywhere" = .error e ∧
      e.isParseKind = true := by
  apply (c8_parse_error_taxonomy loadsNever
    "free text with no json object anywhere").1.mpr
  refine ⟨rfl, Or.inl ?_⟩
  decide

/-! ## Validation lemmas and claim C2 -/

theorem mapM_ok_mem {α β : Type} {f : α → Except String β} :
    ∀ {l : List α} {l' : List β}, l.mapM f = .ok l' → ∀ b ∈ l', ∃ a ∈ l, f a = .ok b := by
  intro l
  induction l with
  | nil =>
      intro l' h b hb
      simp only [List.mapM_nil] at h
      injection h with h
      subst h
      simp at hb
  | cons a t ih =>
      intro l' h b hb
      rw [List.mapM_cons] at h
      cases hfa : f a with
      | error e => simp [hfa, Bind.bind, Except.bind] at h
      | ok b0 =>
          cases hmt : t.mapM f with
          | error e =>
              have hmt' : List.mapM.loop f t [] = Except.error e := hmt
              simp [hfa, hmt', Bind.bind, Except.bind] at h
          | ok bs =>
              simp only [hfa, Bind.bind, Except.bind, Pure.pure,
                Except.pure] at h
              rw [hmt] at h
              have h2 : Except.ok (b0 :: bs) = Except.ok l' := h
              injection h2 with h2
              subst h2
              rcases List.mem_cons.mp hb with hb | hb
              · exact ⟨a, List.mem_cons_self a t, by rw [hb]; exact hfa⟩
              · obtain ⟨a0, ha0, hfa0⟩ := ih hmt b hb
                exact ⟨a0, List.mem_cons_of_mem a ha0, hfa0⟩

theorem validateLocation_ok {rl : RawLocation} {loc : Location}
    (h : validateLocation rl = .ok loc) :
    ∀ q ∈ locRatings loc, 0 ≤ q ∧ q ≤ 5 := by
  unfold validateLocation at h
  split at h
  · exact Except.noConfusion h
  · split at h
    · rename_i hok
      injection h with h
      subst h
      intro q hq
      simp only [locRatings, Option.mem_toList] at hq
      rw [hq] at hok
      simpa [ratingOk] using hok
    · exact Except.noConfusion h

theorem validateActivity_ok {ra : RawActivity} {a : Activity}
    (h : validateActivity ra = .ok a) :
    ∀ q ∈ locRatings a.location, 0 ≤ q ∧ q ≤ 5 := by
  unfold validateActivity at h
  split at h
  · exact Except.noConfusion h
  · split at h
    · exact Except.noConfusion h
    · split at h
      · exact Except.noConfusion h
      · rename_i loc hloc
        split at h
        · injection h with h
          subst h
          exact validateLocation_ok hloc
        · exact Except.noConfusion h

theorem validateDayPlan_ok {rd : RawDayPlan} {dp : DayPlan}
    (h : validateDayPlan rd = .ok dp) :
    1 ≤ dp.day_number ∧ ∀ q ∈ dayPlanRatings dp, 0 ≤ q ∧ q ≤ 5 := by
  unfold validateDayPlan at h
  split at h
  · exact Except.noConfusion h
  · rename_i dn hdn
    split at h
    · rename_i hge
      split at h
      · exact Except.noConfusion h
      · split at h
        · exact Except.noConfusion h
        · rename_i acts hacts
          injection h with h
          subst h
          refine ⟨hge, ?_⟩
          intro q hq
          simp only [dayPlanRatings] at hq
          obtain ⟨a, ha, hqa⟩ := List.mem_flatMap.mp hq
          obtain ⟨ra, -, hra⟩ := mapM_ok_mem hacts a ha
          exact validateActivity_ok hra q hqa
    · exact Except.noConfusion h

theorem validateAccommodation_ok {ra : RawAccommodation} {a : Accommodation}
    (h : validateAccommodation ra = .ok a) :
    ∀ q ∈ accRatings a, 0 ≤ q ∧ q ≤ 5 := by
  unfold validateAccommodation at h
  split at h
  · exact Except.noConfusion h
  · split at h
    · rename_i hok
      injection h with h
      subst h
      intro q hq
      simp only [accRatings, Option.mem_toList] at hq
      rw [hq] at hok
      simpa [ratingOk] using hok
    · exact Except.noConfusion h

theorem validateOptList_ok {α β : Type} {f : α → Except String β}
    {o : Option (List α)} {o' : Option (List β)}
    (h : validateOptList f o = .ok o') :
    ∀ l' b, o' = some l' → b ∈ l' → ∃ a, f a = .ok b := by
  intro l' b ho' hb
  subst ho'
  unfold validateOptList at h
  cases o with
  | none => simp at h
  | some l =>
      simp only at h
      split at h
      · exact Except.noConfusion h
      · rename_i l0 hl0
        injection h with h
        injection h with h
        subst h
        obtain ⟨a, -, hfa⟩ := mapM_ok_mem hl0 b hb
        exact ⟨a, hfa⟩

theorem validateReport_ok {d : RawReport} {rep : ItineraryReport}
    (h : validateReport d = .ok rep) :
    1 ≤ rep.day_plans.length ∧ (∀ dp ∈ rep.day_plans, 1 ≤ dp.day_number) ∧
      (∀ q ∈ reportRatings rep, 0 ≤ q ∧ q ≤ 5) := by
  unfold validateReport at h
  split at h
  · exact Except.noConfusion h
  · split at h
    · exact Except.noConfusion h
    · split at h
      · exact Except.noConfusion h
      · split at h
        · split at h
          · exact Except.noConfusion h
          · split at h
            · exact Except.noConfusion h
            · rename_i plans hplans
              split at h
              · exact Except.noConfusion h
              · rename_i hne
                split at h
                · exact Except.noConfusion h
                · rename_i tas htas
                  split at h
                  · exact Except.noConfusion h
                  · rename_i mvs hmvs
                    split at h
                    · exact Except.noConfusion h
                    · rename_i accs haccs
                      split at h
                      · exact Except.noConfusion h
                      · rename_i trs htrs
                        injection h with h
                        subst h
                        constructor
                        · simp only [List.isEmpty_iff] at hne
                          cases plans with
                          | nil => exact absurd rfl hne
                          | cons p ps => simp
                        constructor
                        · intro dp hdp
                          obtain ⟨rd, -, hrd⟩ := mapM_ok_mem hplans dp hdp
                          exact (validateDayPlan_ok hrd).1
                        · intro q hq
                          simp only [reportRatings] at hq
                          rcases List.mem_append.mp hq with hq | hq
                          · rcases List.mem_append.mp hq with hq | hq
                            · rcases List.mem_append.mp hq with hq | hq
                              · obtain ⟨dp, hdp, hqd⟩ := List.mem_flatMap.mp hq
                                obtain ⟨rd, -, hrd⟩ := mapM_ok_mem hplans dp hdp
                                exact (validateDayPlan_ok hrd).2 q hqd
                              · cases tas with
                                | none => simp [optRatings] at hq
                                | some l =>
                                    simp only [optRatings] at hq
                                    obtain ⟨loc, hloc, hql⟩ := List.mem_flatMap.mp hq
                                    obtain ⟨rl, hrl⟩ :=
                                      validateOptList_ok htas l loc rfl hloc
                                    exact validateLocation_ok hrl q hql
                            · cases mvs with
                              | none => simp [optRatings] at hq
                              | some l =>
                                  simp only [optRatings] at hq
                                  obtain ⟨loc, hloc, hql⟩ := List.mem_flatMap.mp hq
                                  obtain ⟨rl, hrl⟩ :=
                                    validateOptList_ok hmvs l loc rfl hloc
                                  exact validateLocation_ok hrl q hql
                          · cases accs with
                            | none => simp [optRatings] at hq
                            | some l =>
                                simp only [optRatings] at hq
                                obtain ⟨acc, hacc, hql⟩ := List.mem_flatMap.mp hq
                                obtain ⟨rac, hrac⟩ :=
                                  validateOptList_ok haccs l acc rfl hacc
                                exact validateAccommodation_ok hrac q hql
        · exact Except.noConfusion h

theorem rawLocRatings_norm (l : RawLocation) :
    rawLocRatings (normalizeLocRating l) = (rawLocRatings l).map normRating := by
  cases h : l.rating <;> simp [rawLocRatings, normalizeLocRating, h]

theorem rawActivityRatings_norm (a : RawActivity) :
    rawActivityRatings (normalizeActivity a) =
      (rawActivityRatings a).map normRating := by
  cases h : a.location <;>
    simp [rawActivityRatings, normalizeActivity, h, rawLocRatings_norm]

theorem rawDayPlanRatings_norm (d : RawDayPlan) :
    rawDayPlanRatings (normalizeDayPlan d) =
      (rawDayPlanRatings d).map normRating := by
  unfold rawDayPlanRatings normalizeDayPlan
  rw [List.flatMap_map, List.map_flatMap]
  congr 1
  funext a
  exact rawActivityRatings_norm a

theorem rawAccRatings_norm (a : RawAccommodation) :
    rawAccRatings (normalizeAcc a) = (rawAccRatings a).map normRating := by
  cases h : a.rating <;> simp [rawAccRatings, normalizeAcc, h]

theorem optRatings_norm {α : Type} (f : α → List ℚ) (g : α → α)
    (o : Option (List α)) (h : ∀ a, f (g a) = (f a).map normRating) :
    optRatings f (o.map (List.map g)) = (optRatings f o).map normRating := by
  cases o with
  | none => rfl
  | some l =>
      simp only [Option.map_some', optRatings]
      rw [List.flatMap_map, List.map_flatMap]
      congr 1
      funext a
      exact h a

theorem rawReportRatings_norm (d : RawReport) :
    rawReportRatings (normalizeRatings d) =
      (rawReportRatings d).map normRating := by
  unfold rawReportRatings normalizeRatings
  simp only [List.map_append]
  rw [optRatings_norm rawDayPlanRatings normalizeDayPlan d.day_plans
        rawDayPlanRatings_norm,
      optRatings_norm rawLocRatings normalizeLocRating d.top_attractions
        rawLocRatings_norm,
      optRatings_norm rawLocRatings normalizeLocRating d.must_visit_places
        rawLocRatings_norm,
      optRatings_norm rawAccRatings normalizeAcc d.accommodation_recommendations
        rawAccRatings_norm]

theorem pyRoundInt_45 : pyRoundInt (45 : ℚ) = 45 := by
  unfold pyRoundInt
  have hf : ⌊(45 : ℚ)⌋ = 45 := by norm_num
  rw [hf]
  norm_num

/-- C2: the normalizer maps every rating it walks (activity locations inside
day plans, top attractions, must-visit places, accommodation
recommendations) pointwise through the halving rule — a value above 5
becomes `round(r / 2, 1)`, a value at most 5 is unchanged — and every
rating of a successfully validated report lies in `[0, 5]`. -/
theorem c2_rating_normalization :
    (∀ r : ℚ, 5 < r → normRating r = pyRound1 (r / 2)) ∧
    (∀ r : ℚ, r ≤ 5 → normRating r = r) ∧
    (∀ d : RawReport, rawReportRatings (normalizeRatings d) =
        (rawReportRatings d).map normRating) ∧
    (∀ (d : RawReport) (rep : ItineraryReport), validateReport d = .ok rep →
        ∀ q ∈ reportRatings rep, 0 ≤ q ∧ q ≤ 5) := by
  refine ⟨?_, ?_, rawReportRatings_norm, ?_⟩
  · intro r h
    unfold normRating
    rw [if_pos h]
  · intro r h
    unfold normRating
    rw [if_neg (not_lt.mpr h)]
  · intro d rep h
    exact (validateReport_ok h).2.2

/-- Witness for C2 at concrete inputs: a 9.0 rating normalizes to
`round(4.5, 1) = 4.5`, an in-range rating is untouched, and a concretely
validated report has all ratings in `[0, 5]`. -/
theorem c2_witness :
    normRating 9 = pyRound1 (9 / 2) ∧ pyRound1 (9 / 2) = 4.5 ∧
    normRating 3 = 3 ∧ validateReport rawC2 = .ok repC2 ∧
    (∀ q ∈ reportRatings repC2, 0 ≤ q ∧ q ≤ 5) := by
  obtain ⟨h1, h2, -, h4⟩ := c2_rating_normalization
  have hv : validateReport rawC2 = .ok repC2 := by rfl
  have h45 : (9 / 2 : ℚ) * 10 = 45 := by norm_num
  have hp : pyRound1 (9 / 2) = 4.5 := by
    unfold pyRound1
    rw [h45, pyRoundInt_45]
    norm_num
  exact ⟨h1 9 (by norm_num), hp, h2 3 (by norm_num), hv, h4 rawC2 repC2 hv⟩

/-! ## Pipeline inversion and claim C1 -/

theorem parse_ok_validated {loads : String → Except String RawReport}
    {text : String} {rep : ItineraryReport} (h : parse loads text = .ok rep) :
    ∃ raw, validateReport raw = .ok rep := by
  simp only [parse] at h
  split at h
  · split at h
    · rename_i hv
      injection h with h
      subst h
      exact ⟨_, hv⟩
    · exact Except.noConfusion h
  · split at h
    · split at h
      · split at h
        · rename_i hv
          injection h with h
          subst h
          exact ⟨_, hv⟩
        · exact Except.noConfusion h
      · exact Except.noConfusion h
    · exact Except.noConfusion h

theorem runPipelineToParse_ok {d : ServiceDeps} {req : TravelPlanRequest}
    {itin : ItineraryReport} (h : runPipelineToParse d req = .ok itin) :
    ∃ raw, validateReport raw = .ok itin := by
  simp only [runPipelineToParse, Bind.bind, Except.bind] at h
  split at h
  · exact Except.noConfusion h
  · split at h
    · exact Except.noConfusion h
    · split at h
      · exact Except.noConfusion h
      · split at h
        · exact Except.noConfusion h
        · split at h
          · exact Except.noConfusion h
          · split at h
            · exact Except.noConfusion h
            · split at h
              · exact Except.noConfusion h
              · split at h
                · exact Except.noConfusion h
                · split at h
                  · exact Except.noConfusion h
                  · split at h
                    · exact Except.noConfusion h
                    · split at h
                      · exact Except.noConfusion h
                      · split at h
                        · exact Except.noConfusion h
                        · split at h
                          · rename_i itin0 hp
                            injection h with h
                            subst h
                            exact parse_ok_validated hp
                          · exact Except.noConfusion h

theorem postProcess_preserves_day_plans (d : ServiceDeps)
    (req : TravelPlanRequest) (itin : ItineraryReport) :
    (postProcess d req itin).day_plans.length = itin.day_plans.length ∧
    ∀ dp ∈ (postProcess d req itin).day_plans,
      ∃ dp0 ∈ itin.day_plans, dp.day_number = dp0.day_number := by
  unfold postProcess enrichReport
  constructor
  · simp
  · intro dp hdp
    simp only [List.mem_map] at hdp
    obtain ⟨dp0, hdp0, rfl⟩ := hdp
    exact ⟨dp0, hdp0, rfl⟩

set_option maxRecDepth 8000 in
/-- C1 counterexample: a request with `duration = 5` whose generation output
carries only two day plans is accepted: structural validation does not
compare the day-plan count with the requested duration, so the outcome has
`success = true` with 2 day plans — contradicting both the exact-count
property and the claim that such a mismatch is rejected with
`success = false`. -/
theorem c1_counterexample :
    reqC1.extra.lookup "duration" = some "5" ∧
    (generateItinerary depsC1 reqC1).success = true ∧
    ((generateItinerary depsC1 reqC1).itinerary.map fun it =>
        it.day_plans.length) = some 2 ∧
    (2 : Nat) ≠ 5 := by
  refine ⟨rfl, rfl, rfl, by decide⟩

/-- C1 (amended): what validation does guarantee for a successful outcome:
the report has at least one day plan and every `day_number` is at least 1;
the day-plan count is not checked against the requested duration (the
counterexample shows a 2-plan report accepted for a 5-day request). -/
theorem c1_amended_day_plans_nonempty (d : ServiceDeps)
    (req : TravelPlanRequest) (it : ItineraryReport)
    (h : (generateItinerary d req).itinerary = some it) :
    (generateItinerary d req).success = true ∧ 1 ≤ it.day_plans.length ∧
    ∀ dp ∈ it.day_plans, 1 ≤ dp.day_number := by
  cases hb : generateItineraryBody d req with
  | error e =>
      unfold generateItinerary at h
      rw [hb] at h
      simp at h
  | ok itin0 =>
      unfold generateItinerary at h ⊢
      rw [hb] at h ⊢
      simp only [Option.some.injEq] at h
      subst h
      refine ⟨rfl, ?_⟩
      unfold generateItineraryBody at hb
      cases hr : runPipelineToParse d req with
      | error e =>
          rw [hr] at hb
          exact Except.noConfusion hb
      | ok itin1 =>
          rw [hr] at hb
          have hb2 : Except.ok (postProcess d req itin1) =
              Except.ok itin0 := hb
          injection hb2 with hb2
          obtain ⟨raw, hv⟩ := runPipelineToParse_ok hr
          obtain ⟨hlen, hnums, -⟩ := validateReport_ok hv
          obtain ⟨hplen, hpnum⟩ := postProcess_preserves_day_plans d req itin1
          rw [hb2] at hplen hpnum
          constructor
          · rw [hplen]
            exact hlen
          · intro dp hdp
            obtain ⟨dp0, hdp0, hnum⟩ := hpnum dp hdp
            rw [hnum]
            exact hnums dp0 hdp0

set_option maxRecDepth 8000 in
/-- Witness for the amended C1 on the concrete five-day scenario. -/
theorem c1_witness :
    (generateItinerary depsC1 reqC1).success = true ∧
    Option.elim ((generateItinerary depsC1 reqC1).itinerary) False
      (fun it => 1 ≤ it.day_plans.length ∧
        ∀ dp ∈ it.day_plans, 1 ≤ dp.day_number) := by
  have hsome : ∃ it, (generateItinerary depsC1 reqC1).itinerary = some it :=
    ⟨_, rfl⟩
  obtain ⟨it, hit⟩ := hsome
  obtain ⟨hs, h1, h2⟩ := c1_amended_day_plans_nonempty depsC1 reqC1 it hit
  rw [hit]
  exact ⟨hs, h1, h2⟩

/-! ## Markdown section lemmas and claim C10 -/

theorem join_head_ne_empty (hd : String) (l : List String) (h : hd.length ≠ 0) :
    String.join (hd :: l) ≠ "" := by
  rw [strJoin_cons]
  exact strAppend_ne_empty hd _ h

theorem ite_sec_empty_iff (b : Bool) (hd : String) (mk1 : List String)
    (hhd : hd.length ≠ 0) :
    String.join (if b then hd :: mk1 else []) = "" ↔ b = false := by
  cases b with
  | false => simp [String.join]
  | true =>
      rw [if_pos rfl]
      constructor
      · intro hj
        exact absurd hj (join_head_ne_empty hd mk1 hhd)
      · intro h
        exact Bool.noConfusion h

theorem ite_sec_empty_iff_inv (b : Bool) (hd : String) (mk1 : List String)
    (hhd : hd.length ≠ 0) :
    String.join (if b then [] else hd :: mk1) = "" ↔ b = true := by
  cases b with
  | true => simp [String.join]
  | false =>
      rw [if_neg (by decide : ¬ (false = true))]
      constructor
      · intro hj
        exact absurd hj (join_head_ne_empty hd mk1 hhd)
      · intro h
        exact Bool.noConfusion h

/-- C10: markdown synthesis is a pure, deterministic function of the report
(equal reports yield byte-identical output); it factors into the fixed
section order — title, overview, travel details, day-by-day itinerary, top
attractions, must-visit places, accommodations, transportation (plus the
local-transport paragraph), general tips, cultural notes, weather, best
time to visit; and each optional section renders to the empty string
exactly when its backing data is absent (Python-falsy). -/
theorem c10_markdown_pure_fixed_sections :
    (∀ it₁ it₂ : ItineraryReport, it₁ = it₂ →
        generateMarkdown it₁ = generateMarkdown it₂) ∧
    (∀ it, generateMarkdown it =
        secText titleSecParts it ++ secText overviewSecParts it ++
        secText travelDetailsSecParts it ++ secText dayPlansSecParts it ++
        secText topAttractionsSecParts it ++ secText mustVisitSecParts it ++
        secText accommodationsSecParts it ++ secText transportSecParts it ++
        secText localTransportSecParts it ++ secText generalTipsSecParts it ++
        secText culturalSecParts it ++ secText weatherSecParts it ++
        secText bestTimeSecParts it) ∧
    (∀ it, secText dayPlansSecParts it = "" ↔ it.day_plans.isEmpty = true) ∧
    (∀ it, secText topAttractionsSecParts it = "" ↔
        truthyOptList it.top_attractions = false) ∧
    (∀ it, secText mustVisitSecParts it = "" ↔
        truthyOptList it.must_visit_places = false) ∧
    (∀ it, secText accommodationsSecParts it = "" ↔
        truthyOptList it.accommodation_recommendations = false) ∧
    (∀ it, secText transportSecParts it = "" ↔
        truthyOptList it.transportation_tips = false) ∧
    (∀ it, secText localTransportSecParts it = "" ↔
        truthyOptStr it.local_transport = false) ∧
    (∀ it, secText generalTipsSecParts it = "" ↔
        truthyOptList it.general_tips = false) ∧
    (∀ it, secText culturalSecParts it = "" ↔
        truthyOptList it.cultural_notes = false) ∧
    (∀ it, secText weatherSecParts it = "" ↔
        truthyOptStr it.weather_info = false) ∧
    (∀ it, secText bestTimeSecParts it = "" ↔
        truthyOptStr it.best_time_to_visit = false) := by
  refine ⟨fun it₁ it₂ h => by rw [h], ?_, ?_, ?_, ?_, ?_, ?_, ?_, ?_, ?_, ?_, ?_⟩
  · intro it
    unfold generateMarkdown secText titleSecParts overviewSecParts
      travelDetailsSecParts dayPlansSecParts topAttractionsSecParts
      mustVisitSecParts accommodationsSecParts transportSecParts
      localTransportSecParts generalTipsSecParts culturalSecParts
      weatherSecParts bestTimeSecParts
    simp only [strJoin_append]
  · intro it
    exact ite_sec_empty_iff_inv it.day_plans.isEmpty "## Day-by-Day Itinerary\n\n"
      (it.day_plans.flatMap dayPlanParts) (by decide)
  · intro it
    exact ite_sec_empty_iff (truthyOptList it.top_attractions)
      "## Top Attractions\n\n"
      (((it.top_attractions.getD []).take 10).enum.flatMap fun p =>
        attractionParts (p.1 + 1) p.2) (by decide)
  · intro it
    exact ite_sec_empty_iff (truthyOptList it.must_visit_places)
      "## Must-Visit Places\n\n"
      ((((it.must_visit_places.getD []).take 10).flatMap mustVisitItemParts) ++
        ["\n"]) (by decide)
  · intro it
    exact ite_sec_empty_iff (truthyOptList it.accommodation_recommendations)
      "## Accommodation Recommendations\n\n"
      ((it.accommodation_recommendations.getD []).flatMap accommodationParts)
      (by decide)
  · intro it
    exact ite_sec_empty_iff (truthyOptList it.transportation_tips)
      "## Transportation\n\n"
      ((it.transportation_tips.getD []).flatMap transportParts) (by decide)
  · intro it
    exact ite_sec_empty_iff (truthyOptStr it.local_transport)
      ("### Local Transportation\n\n" ++ (it.local_transport.getD "") ++ "\n\n")
      [] (by
        rw [String.length_append, String.length_append]
        have h1 : 0 < "### Local Transportation\n\n".length := by decide
        omega)
  · intro it
    exact ite_sec_empty_iff (truthyOptList it.general_tips)
      "## General Travel Tips\n\n"
      (((it.general_tips.getD []).map fun tip => "- " ++ tip ++ "\n") ++ ["\n"])
      (by decide)
  · intro it
    exact ite_sec_empty_iff (truthyOptList it.cultural_notes)
      "## Cultural Information\n\n"
      (((it.cultural_notes.getD []).map fun note => "- " ++ note ++ "\n") ++
        ["\n"]) (by decide)
  · intro it
    exact ite_sec_empty_iff (truthyOptStr it.weather_info)
      "## Weather Information\n\n" [(it.weather_info.getD "") ++ "\n\n"]
      (by decide)
  · intro it
    exact ite_sec_empty_iff (truthyOptStr it.best_time_to_visit)
      "## Best Time to Visit\n\n" [(it.best_time_to_visit.getD "") ++ "\n\n"]
      (by decide)

/-- Witness for C10: two calls on the same concrete report are
byte-identical. -/
theorem c10_witness : generateMarkdown reportC10 = generateMarkdown reportC10 :=
  c10_markdown_pure_fixed_sections.1 reportC10 reportC10 rfl
